import Mathlib

/-!
# home-lab: the Pulumi program (`src/pulumi/main.go`, `src/pulumi/linode.go`)

A shallow embedding of the Pulumi program that provisions the Proxmox VMs and
the Linode edge node, and theorems about the order of its provider calls, its
error values and its stack exports.

The third-party SDK is the environment of the program:

* a resource constructor (`vm.NewVirtualMachine`, `linode.NewInstance`, ...)
  either returns a resource handle or an error.  The provider is a parameter
  `Provider`; each answer may depend on every request made before it;
* `ctx.Export` writes one key of the stack exports;
* `cfg.Get` returns the empty string for an unset key, `cfg.Require` and
  `cfg.RequireSecret` panic on an unset key;
* a `pulumi.Output` is represented by the value it resolves to.
-/

namespace HomeLab

/-! ## Go values -/

/-- Go `error` values.  `base` is an error made outside this program,
`wrapf pre inner` is `fmt.Errorf(pre + "%w", inner)`. -/
inductive GoError where
  | base (msg : String)
  | wrapf (pre : String) (inner : GoError)
  deriving DecidableEq, Repr

/-- The `Error()` method: the text of a wrapped error is the formatted text
with the text of the inner error in the place of `%w`. -/
def GoError.Error : GoError → String
  | .base msg => msg
  | .wrapf pre inner => pre ++ inner.Error

/-- The `errors.Unwrap` function. -/
def GoError.Unwrap : GoError → Option GoError
  | .base _ => none
  | .wrapf _ inner => some inner

/-- A Go `map[string]string` (`pulumi.StringMap`), one entry per key. -/
abbrev StringMap := List (String × String)

/-- The assignment `m[k] = v`: the entry of `k`, if any, is replaced. -/
def StringMap.set (m : StringMap) (k v : String) : StringMap :=
  (k, v) :: m.filter (fun p => p.1 != k)

/-- The read `m[k]`, `none` for an absent key. -/
def StringMap.get (m : StringMap) (k : String) : Option String :=
  (m.find? (fun p => p.1 == k)).map (fun p => p.2)

/-- The keys of the map. -/
def StringMap.keys (m : StringMap) : List String :=
  m.map (fun p => p.1)

/-! ## Configuration types -/

/-- Modelled from the spec: the declaration of `VMDefinition` is not among the
sources at hand; the fields are the ones `main.go` reads (name, role,
CPU/memory/disk, IP, vmid). -/
structure VMDefinition where
  Name : String
  Description : String
  Role : String
  IP : String
  Vmid : Int
  Cores : Int
  MemoryMB : Int
  DiskGB : Int
  deriving DecidableEq, Repr

/-- Modelled from the spec: the declaration of the infrastructure
configuration is not among the sources at hand; the fields are the ones
`main.go` reads. -/
structure InfraConfig where
  VMs : List VMDefinition
  SSHPublicKey : String
  Gateway : String
  DNSServer : String
  NodeName : String
  TemplateVmId : Int
  Datastore : String
  Bridge : String
  deriving DecidableEq, Repr

/-- The struct `LinodeConfig` of `linode.go`. -/
structure LinodeConfig where
  Region : String
  SSHPublicKey : String
  RootPassword : String
  Label : String
  HomeEndpoint : String
  HomeWgPublicKey : String
  HomeIngressIP : String
  deriving DecidableEq, Repr

/-- The Pulumi stack configuration: the value of a key, `none` when unset. -/
abbrev Config := String → Option String

/-- `cfg.Get(key)`: the empty string when the key is unset. -/
def Config.Get (cfg : Config) (key : String) : String :=
  (cfg key).getD ""

/-- `cfg.Require(key)`: panics when the key is unset; the panic carries the
name of the missing key. -/
def Config.Require (cfg : Config) (key : String) : Except String String :=
  match cfg key with
  | some v => .ok v
  | none => .error key

/-- `cfg.RequireSecret(key)`: as `Require`, the value is marked secret. -/
def Config.RequireSecret (cfg : Config) (key : String) : Except String String :=
  cfg.Require key

/-! ## Provider requests -/

structure VirtualMachineCloneArgs where
  VmId : Int
  Full : Bool
  DatastoreId : String
  Retries : Int
  deriving DecidableEq, Repr

structure VirtualMachineCpuArgs where
  Cores : Int
  Sockets : Int
  Type_ : String
  deriving DecidableEq, Repr

structure VirtualMachineMemoryArgs where
  Dedicated : Int
  Floating : Int
  deriving DecidableEq, Repr

structure VirtualMachineDiskArgs where
  Interface : String
  Size : Int
  DatastoreId : String
  FileFormat : String
  Iothread : Bool
  Ssd : Bool
  Discard : String
  deriving DecidableEq, Repr

structure VirtualMachineNetworkDeviceArgs where
  Bridge : String
  Model : String
  deriving DecidableEq, Repr

structure VirtualMachineAgentArgs where
  Enabled : Bool
  Trim : Bool
  Type_ : String
  deriving DecidableEq, Repr

structure VirtualMachineOperatingSystemArgs where
  Type_ : String
  deriving DecidableEq, Repr

structure VirtualMachineInitializationDnsArgs where
  Domain : String
  Servers : List String
  deriving DecidableEq, Repr

structure VirtualMachineInitializationIpConfigIpv4Args where
  Address : String
  Gateway : String
  deriving DecidableEq, Repr

structure VirtualMachineInitializationIpConfigArgs where
  Ipv4 : VirtualMachineInitializationIpConfigIpv4Args
  deriving DecidableEq, Repr

structure VirtualMachineInitializationUserAccountArgs where
  Username : String
  Keys : List String
  deriving DecidableEq, Repr

structure VirtualMachineInitializationArgs where
  Type_ : String
  DatastoreId : String
  Dns : VirtualMachineInitializationDnsArgs
  IpConfigs : List VirtualMachineInitializationIpConfigArgs
  UserAccount : VirtualMachineInitializationUserAccountArgs
  deriving DecidableEq, Repr

structure VirtualMachineArgs where
  NodeName : String
  Name : String
  Description : String
  VmId : Int
  Tags : List String
  OnBoot : Bool
  Started : Bool
  Clone : VirtualMachineCloneArgs
  Cpu : VirtualMachineCpuArgs
  Memory : VirtualMachineMemoryArgs
  Disks : List VirtualMachineDiskArgs
  ScsiHardware : String
  NetworkDevices : List VirtualMachineNetworkDeviceArgs
  Agent : VirtualMachineAgentArgs
  OperatingSystem : VirtualMachineOperatingSystemArgs
  Initialization : VirtualMachineInitializationArgs
  deriving DecidableEq, Repr

structure InstanceArgs where
  Label : String
  Image : String
  Region : String
  Type_ : String
  AuthorizedKeys : List String
  RootPass : String
  PrivateIp : Bool
  Booted : Bool
  Tags : List String
  deriving DecidableEq, Repr

structure NodeBalancerArgs where
  Label : String
  Region : String
  ClientConnThrottle : Int
  Tags : List String
  deriving DecidableEq, Repr

structure NodeBalancerConfigArgs where
  NodebalancerId : String
  Port : Int
  Protocol : String
  Algorithm : String
  Check : String
  CheckInterval : Int
  CheckTimeout : Int
  CheckAttempts : Int
  Stickiness : String
  deriving DecidableEq, Repr

structure NodeBalancerNodeArgs where
  NodebalancerId : String
  ConfigId : String
  Label : String
  Address : String
  Weight : Int
  deriving DecidableEq, Repr

/-! ## Resource handles: the outputs the program reads -/

/-- A created Proxmox VM; the program reads `node.Name`. -/
structure VirtualMachine where
  Name : String
  deriving DecidableEq, Repr

/-- A created Linode instance; the program reads its two addresses. -/
structure Instance where
  IpAddress : String
  PrivateIpAddress : String
  deriving DecidableEq, Repr

/-- A created NodeBalancer. -/
structure NodeBalancer where
  ID : String
  Hostname : String
  Ipv4 : String
  deriving DecidableEq, Repr

/-- A created NodeBalancer config. -/
structure NodeBalancerConfig where
  ID : String
  deriving DecidableEq, Repr

/-- A created NodeBalancer backend node. -/
structure NodeBalancerNode where
  ID : String
  deriving DecidableEq, Repr

/-- A resource-creation request: the constructor called, the resource name
and the arguments. -/
inductive Request where
  | NewVirtualMachine (name : String) (args : VirtualMachineArgs)
  | NewInstance (name : String) (args : InstanceArgs)
  | NewNodeBalancer (name : String) (args : NodeBalancerArgs)
  | NewNodeBalancerConfig (name : String) (args : NodeBalancerConfigArgs)
  | NewNodeBalancerNode (name : String) (args : NodeBalancerNodeArgs)
  deriving DecidableEq, Repr

/-- The resource name of a request. -/
def Request.name : Request → String
  | .NewVirtualMachine n _ => n
  | .NewInstance n _ => n
  | .NewNodeBalancer n _ => n
  | .NewNodeBalancerConfig n _ => n
  | .NewNodeBalancerNode n _ => n

/-- What a resource constructor handed back. -/
inductive Response where
  | VirtualMachine (r : VirtualMachine)
  | Instance (r : Instance)
  | NodeBalancer (r : NodeBalancer)
  | NodeBalancerConfig (r : NodeBalancerConfig)
  | NodeBalancerNode (r : NodeBalancerNode)
  | failed (err : GoError)
  deriving DecidableEq, Repr

/-- One provider call of a run: the request and its outcome. -/
structure Call where
  req : Request
  res : Response
  deriving DecidableEq, Repr

/-- The call returned a resource. -/
def Call.succeeded (c : Call) : Bool :=
  match c.res with
  | .failed _ => false
  | _ => true

/-- The provider: the outcome of each constructor, given the requests made
before it in the run, the resource name and the arguments. -/
structure Provider where
  NewVirtualMachine : List Request → String → VirtualMachineArgs → Except GoError VirtualMachine
  NewInstance : List Request → String → InstanceArgs → Except GoError Instance
  NewNodeBalancer : List Request → String → NodeBalancerArgs → Except GoError NodeBalancer
  NewNodeBalancerConfig :
    List Request → String → NodeBalancerConfigArgs → Except GoError NodeBalancerConfig
  NewNodeBalancerNode :
    List Request → String → NodeBalancerNodeArgs → Except GoError NodeBalancerNode

/-! ## The Pulumi context -/

/-- A value handed to `ctx.Export`.  `StringOutput none` is the zero value of
`pulumi.StringOutput` (declared, never assigned). -/
inductive ExportValue where
  | StringMap (m : StringMap)
  | StringOutput (v : Option String)
  | String (s : String)
  | Int (n : Int)
  deriving DecidableEq, Repr

/-- The part of `*pulumi.Context` the program acts on: the stack
configuration, the provider calls made so far (oldest first) and the export
writes made so far (oldest first). -/
structure Context where
  config : Config
  calls : List Call
  exports : List (String × ExportValue)

/-- The requests made so far. -/
def Context.requests (ctx : Context) : List Request :=
  ctx.calls.map Call.req

/-- Record a provider call. -/
def Context.record (ctx : Context) (req : Request) (res : Response) : Context :=
  { ctx with calls := ctx.calls ++ [⟨req, res⟩] }

/-- `ctx.Export(key, value)`. -/
def Context.Export (ctx : Context) (key : String) (value : ExportValue) : Context :=
  { ctx with exports := ctx.exports ++ [(key, value)] }

/-- The exported value of a key: the last write wins. -/
def Context.exported (ctx : Context) (key : String) : Option ExportValue :=
  (ctx.exports.reverse.find? (fun p => p.1 == key)).map (fun p => p.2)

/-- The keys written so far. -/
def Context.exportKeys (ctx : Context) : List String :=
  ctx.exports.map (fun p => p.1)

/-! ## linode.go -/

/-- `LoadLinodeConfig` of `linode.go`.  The outer `Except` is a panic (of
`Require` or `RequireSecret`) carrying the missing key; a normal return is the
Go pair of the struct and the error, which this function always leaves nil. -/
def LoadLinodeConfig (ctx : Context) : Except String (LinodeConfig × Option GoError) := do
  let cfg := ctx.config
  let region := cfg.Get "linodeRegion"
  let region := if region = "" then "us-ord" else region
  let label := cfg.Get "linodeLabel"
  let label := if label = "" then "homelab-edge" else label
  let sshKey ← cfg.Require "sshPublicKey"
  let _rootPass ← cfg.RequireSecret "linodeRootPassword"
  let homeEndpoint := cfg.Get "homeEndpoint"
  let homeWgPubKey := cfg.Get "homeWgPublicKey"
  let homeIngressIP := cfg.Get "homeIngressIP"
  let homeIngressIP := if homeIngressIP = "" then "192.168.1.200" else homeIngressIP
  return ({ Region := region
            SSHPublicKey := sshKey
            RootPassword := cfg.Get "linodeRootPassword"
            Label := label
            HomeEndpoint := homeEndpoint
            HomeWgPublicKey := homeWgPubKey
            HomeIngressIP := homeIngressIP }, none)

/-- The arguments of the instance `edge-node`. -/
def edgeNodeArgs (lcfg : LinodeConfig) : InstanceArgs :=
  { Label := lcfg.Label
    Image := "linode/rocky9"
    Region := lcfg.Region
    Type_ := "g6-nanode-1"
    AuthorizedKeys := [lcfg.SSHPublicKey]
    RootPass := lcfg.RootPassword
    PrivateIp := true
    Booted := true
    Tags := ["homelab", "edge", "wireguard"] }

/-- The arguments of the NodeBalancer `edge-lb`. -/
def edgeLbArgs (lcfg : LinodeConfig) : NodeBalancerArgs :=
  { Label := lcfg.Label ++ "-lb"
    Region := lcfg.Region
    ClientConnThrottle := 20
    Tags := ["homelab", "edge"] }

/-- The arguments of the NodeBalancer config `edge-lb-https`. -/
def edgeLbHttpsArgs (nb : NodeBalancer) : NodeBalancerConfigArgs :=
  { NodebalancerId := nb.ID
    Port := 443
    Protocol := "tcp"
    Algorithm := "roundrobin"
    Check := "connection"
    CheckInterval := 30
    CheckTimeout := 10
    CheckAttempts := 3
    Stickiness := "table" }

/-- The arguments of the NodeBalancer config `edge-lb-http`. -/
def edgeLbHttpArgs (nb : NodeBalancer) : NodeBalancerConfigArgs :=
  { NodebalancerId := nb.ID
    Port := 80
    Protocol := "tcp"
    Algorithm := "roundrobin"
    Check := "connection"
    CheckInterval := 30
    CheckTimeout := 10
    CheckAttempts := 3
    Stickiness := "table" }

/-- The arguments of the backend node `edge-backend-https`. -/
def edgeBackendHttpsArgs (edge : Instance) (nb : NodeBalancer)
    (nbConfigHTTPS : NodeBalancerConfig) : NodeBalancerNodeArgs :=
  { NodebalancerId := nb.ID
    ConfigId := nbConfigHTTPS.ID
    Label := "edge-https"
    Address := edge.PrivateIpAddress ++ ":443"
    Weight := 100 }

/-- The arguments of the backend node `edge-backend-http`. -/
def edgeBackendHttpArgs (edge : Instance) (nb : NodeBalancer)
    (nbConfigHTTP : NodeBalancerConfig) : NodeBalancerNodeArgs :=
  { NodebalancerId := nb.ID
    ConfigId := nbConfigHTTP.ID
    Label := "edge-http"
    Address := edge.PrivateIpAddress ++ ":80"
    Weight := 100 }

/-- `ProvisionLinodeEdge` of `linode.go`: the context after the call and the
returned error (`none` is nil). -/
def ProvisionLinodeEdge (P : Provider) (ctx : Context) (lcfg : LinodeConfig) :
    Context × Option GoError :=
  match P.NewInstance ctx.requests "edge-node" (edgeNodeArgs lcfg) with
  | .error err =>
    (ctx.record (.NewInstance "edge-node" (edgeNodeArgs lcfg)) (.failed err),
      some (.wrapf "creating edge node: " err))
  | .ok edge =>
  let ctx := ctx.record (.NewInstance "edge-node" (edgeNodeArgs lcfg)) (.Instance edge)
  match P.NewNodeBalancer ctx.requests "edge-lb" (edgeLbArgs lcfg) with
  | .error err =>
    (ctx.record (.NewNodeBalancer "edge-lb" (edgeLbArgs lcfg)) (.failed err),
      some (.wrapf "creating NodeBalancer: " err))
  | .ok nb =>
  let ctx := ctx.record (.NewNodeBalancer "edge-lb" (edgeLbArgs lcfg)) (.NodeBalancer nb)
  match P.NewNodeBalancerConfig ctx.requests "edge-lb-https" (edgeLbHttpsArgs nb) with
  | .error err =>
    (ctx.record (.NewNodeBalancerConfig "edge-lb-https" (edgeLbHttpsArgs nb)) (.failed err),
      some (.wrapf "creating NodeBalancer HTTPS config: " err))
  | .ok nbConfigHTTPS =>
  let ctx := ctx.record (.NewNodeBalancerConfig "edge-lb-https" (edgeLbHttpsArgs nb))
    (.NodeBalancerConfig nbConfigHTTPS)
  match P.NewNodeBalancerConfig ctx.requests "edge-lb-http" (edgeLbHttpArgs nb) with
  | .error err =>
    (ctx.record (.NewNodeBalancerConfig "edge-lb-http" (edgeLbHttpArgs nb)) (.failed err),
      some (.wrapf "creating NodeBalancer HTTP config: " err))
  | .ok nbConfigHTTP =>
  let ctx := ctx.record (.NewNodeBalancerConfig "edge-lb-http" (edgeLbHttpArgs nb))
    (.NodeBalancerConfig nbConfigHTTP)
  match P.NewNodeBalancerNode ctx.requests "edge-backend-https"
      (edgeBackendHttpsArgs edge nb nbConfigHTTPS) with
  | .error err =>
    (ctx.record (.NewNodeBalancerNode "edge-backend-https"
        (edgeBackendHttpsArgs edge nb nbConfigHTTPS)) (.failed err),
      some (.wrapf "creating HTTPS backend node: " err))
  | .ok nodeHTTPS =>
  let ctx := ctx.record (.NewNodeBalancerNode "edge-backend-https"
    (edgeBackendHttpsArgs edge nb nbConfigHTTPS)) (.NodeBalancerNode nodeHTTPS)
  match P.NewNodeBalancerNode ctx.requests "edge-backend-http"
      (edgeBackendHttpArgs edge nb nbConfigHTTP) with
  | .error err =>
    (ctx.record (.NewNodeBalancerNode "edge-backend-http"
        (edgeBackendHttpArgs edge nb nbConfigHTTP)) (.failed err),
      some (.wrapf "creating HTTP backend node: " err))
  | .ok nodeHTTP =>
  let ctx := ctx.record (.NewNodeBalancerNode "edge-backend-http"
    (edgeBackendHttpArgs edge nb nbConfigHTTP)) (.NodeBalancerNode nodeHTTP)
  let ctx := ctx.Export "edgeNodeIP" (.StringOutput (some edge.IpAddress))
  let ctx := ctx.Export "edgeNodePrivateIP" (.StringOutput (some edge.PrivateIpAddress))
  let ctx := ctx.Export "nodeBalancerHostname" (.StringOutput (some nb.Hostname))
  let ctx := ctx.Export "nodeBalancerIPv4" (.StringOutput (some nb.Ipv4))
  let ctx := ctx.Export "edgeNodeRegion" (.String lcfg.Region)
  (ctx, none)

/-! ## main.go -/

/-- The functions of the repository that `main.go` calls and that are not
among the sources at hand, taken as parameters: `LoadInfraConfig` (a read of
the context that returns the configuration or an error) and
`GenerateCloudInitUserData` (whose result `main` discards). -/
structure Deps where
  LoadInfraConfig : Context → Except GoError InfraConfig
  GenerateCloudInitUserData : VMDefinition → String → String → String → String

/-- The arguments of the VM created for `vmDef` in the loop of `main`. -/
def vmArgs (infraCfg : InfraConfig) (vmDef : VMDefinition) : VirtualMachineArgs :=
  let tags := ["k3s", "rocky9", vmDef.Role]
  let ipCIDR := vmDef.IP ++ "/24"
  { NodeName := infraCfg.NodeName
    Name := vmDef.Name
    Description := vmDef.Description
    VmId := vmDef.Vmid
    Tags := tags
    OnBoot := true
    Started := true
    Clone :=
      { VmId := infraCfg.TemplateVmId
        Full := true
        DatastoreId := infraCfg.Datastore
        Retries := 3 }
    Cpu := { Cores := vmDef.Cores, Sockets := 1, Type_ := "host" }
    Memory := { Dedicated := vmDef.MemoryMB, Floating := vmDef.MemoryMB }
    Disks :=
      [{ Interface := "scsi0"
         Size := vmDef.DiskGB
         DatastoreId := infraCfg.Datastore
         FileFormat := "raw"
         Iothread := true
         Ssd := true
         Discard := "on" }]
    ScsiHardware := "virtio-scsi-single"
    NetworkDevices := [{ Bridge := infraCfg.Bridge, Model := "virtio" }]
    Agent := { Enabled := true, Trim := true, Type_ := "virtio" }
    OperatingSystem := { Type_ := "l26" }
    Initialization :=
      { Type_ := "nocloud"
        DatastoreId := infraCfg.Datastore
        Dns := { Domain := "home.lab", Servers := [infraCfg.DNSServer] }
        IpConfigs := [{ Ipv4 := { Address := ipCIDR, Gateway := infraCfg.Gateway } }]
        UserAccount := { Username := "admin", Keys := [infraCfg.SSHPublicKey] } } }

/-- The request the loop of `main` makes for `vmDef`. -/
def vmRequest (infraCfg : InfraConfig) (vmDef : VMDefinition) : Request :=
  .NewVirtualMachine vmDef.Name (vmArgs infraCfg vmDef)

/-- The variables of the VM loop of `main`: the context, `vmIPs` and
`controlPlaneIP` (`none` is the zero value of the declared output). -/
structure LoopState where
  ctx : Context
  vmIPs : StringMap
  controlPlaneIP : Option String

/-- The loop `for _, vmDef := range infraCfg.VMs` of `main`, run over the
definitions still to visit: the state at the exit of the loop and the error
the loop body returned from `main` with, if it did. -/
def provisionVMs (D : Deps) (P : Provider) (infraCfg : InfraConfig) :
    List VMDefinition → LoopState → LoopState × Option GoError
  | [], s => (s, none)
  | vmDef :: rest, s =>
    let _userData := D.GenerateCloudInitUserData vmDef infraCfg.SSHPublicKey
      infraCfg.Gateway infraCfg.DNSServer
    match P.NewVirtualMachine s.ctx.requests vmDef.Name (vmArgs infraCfg vmDef) with
    | .error err =>
      ({ s with ctx := s.ctx.record (vmRequest infraCfg vmDef) (.failed err) },
        some (.wrapf ("creating VM " ++ vmDef.Name ++ ": ") err))
    | .ok node =>
      provisionVMs D P infraCfg rest
        { ctx := s.ctx.record (vmRequest infraCfg vmDef) (.VirtualMachine node)
          vmIPs := s.vmIPs.set vmDef.Name vmDef.IP
          controlPlaneIP := if vmDef.Role = "server" then some vmDef.IP else s.controlPlaneIP }

/-- The section `Proxmox Stack Exports` of `main`, reached at the exit of the
VM loop. -/
def proxmoxExports (infraCfg : InfraConfig) (s : LoopState) : Context :=
  let ctx := s.ctx.Export "vmIPs" (.StringMap s.vmIPs)
  let ctx := ctx.Export "controlPlaneIP" (.StringOutput s.controlPlaneIP)
  let ctx := ctx.Export "nodeName" (.String infraCfg.NodeName)
  let ctx := ctx.Export "vmCount" (.Int infraCfg.VMs.length)
  ctx

/-- How a run of the program ends: the function passed to `pulumi.Run`
returns (nil or an error), or a panic unwinds it (the missing key of
`Require`). -/
inductive RunResult where
  | returned (err : Option GoError)
  | panicked (key : String)
  deriving DecidableEq, Repr

/-- The function `main` passes to `pulumi.Run`: the context at the end of the
run and how the run ended. -/
def main (D : Deps) (P : Provider) (ctx : Context) : Context × RunResult :=
  match D.LoadInfraConfig ctx with
  | .error err => (ctx, .returned (some (.wrapf "loading infrastructure config: " err)))
  | .ok infraCfg =>
  match provisionVMs D P infraCfg infraCfg.VMs ⟨ctx, [], none⟩ with
  | (s, some err) => (s.ctx, .returned (some err))
  | (s, none) =>
  let ctx := proxmoxExports infraCfg s
  match LoadLinodeConfig ctx with
  | .error key => (ctx, .panicked key)
  | .ok (_, some err) => (ctx, .returned (some (.wrapf "loading linode config: " err)))
  | .ok (linodeCfg, none) =>
  match ProvisionLinodeEdge P ctx linodeCfg with
  | (ctx, some err) => (ctx, .returned (some (.wrapf "provisioning linode edge: " err)))
  | (ctx, none) => (ctx, .returned none)

/-- The context at the start of a run: no provider call, no export. -/
def Context.start (config : Config) : Context :=
  { config := config, calls := [], exports := [] }

/-- A run of the program on a stack configuration. -/
def run (D : Deps) (P : Provider) (config : Config) : Context × RunResult :=
  main D P (Context.start config)

/-! ## Spec-side predicates on the call log -/

/-- The calls `ProvisionLinodeEdge` adds to the log of `ctx`. -/
def linodeCalls (P : Provider) (ctx : Context) (lcfg : LinodeConfig) : List Call :=
  (ProvisionLinodeEdge P ctx lcfg).1.calls.drop ctx.calls.length

/-- Among `cs`, a NodeBalancer was created successfully and has this ID. -/
def createdNodeBalancer (cs : List Call) (id : String) : Bool :=
  cs.any fun c =>
    match c.req, c.res with
    | .NewNodeBalancer _ _, .NodeBalancer nb => nb.ID == id
    | _, _ => false

/-- Among `cs`, a NodeBalancer config was created successfully and has this
ID. -/
def createdNodeBalancerConfig (cs : List Call) (id : String) : Bool :=
  cs.any fun c =>
    match c.req, c.res with
    | .NewNodeBalancerConfig _ _, .NodeBalancerConfig nbc => nbc.ID == id
    | _, _ => false

/-- Among `cs`, an instance was created successfully and `address` is its
private IP followed by a port, `:443` or `:80`. -/
def createdInstanceAt (cs : List Call) (address : String) : Bool :=
  cs.any fun c =>
    match c.req, c.res with
    | .NewInstance _ _, .Instance edge =>
      address == edge.PrivateIpAddress ++ ":443" || address == edge.PrivateIpAddress ++ ":80"
    | _, _ => false

/-- Every resource the request of `c` refers to (by NodeBalancer ID, by
config ID, by the private IP in a backend address) was created successfully
among the calls `before`. -/
def Call.referencesCreated (before : List Call) (c : Call) : Bool :=
  match c.req with
  | .NewNodeBalancerConfig _ args => createdNodeBalancer before args.NodebalancerId
  | .NewNodeBalancerNode _ args =>
    createdNodeBalancer before args.NodebalancerId &&
      createdNodeBalancerConfig before args.ConfigId &&
      createdInstanceAt before args.Address
  | _ => true

/-- The request creates a Proxmox VM. -/
def Request.isVM : Request → Bool
  | .NewVirtualMachine _ _ => true
  | _ => false

/-- The chain of an error: the error, what it wraps, and so on (the errors
`errors.Is` visits). -/
def GoError.chain : GoError → List GoError
  | .base msg => [.base msg]
  | .wrapf pre inner => .wrapf pre inner :: inner.chain

/-- The text `sub` occurs in the text `s`. -/
def occursIn (sub s : String) : Prop :=
  sub.data <:+: s.data

instance (sub s : String) : Decidable (occursIn sub s) := by
  unfold occursIn; infer_instance

/-- The call that creates `edge-node`, with its outcome. -/
def edgeNodeCall (lcfg : LinodeConfig) (res : Response) : Call :=
  ⟨.NewInstance "edge-node" (edgeNodeArgs lcfg), res⟩

/-- The call that creates `edge-lb`, with its outcome. -/
def edgeLbCall (lcfg : LinodeConfig) (res : Response) : Call :=
  ⟨.NewNodeBalancer "edge-lb" (edgeLbArgs lcfg), res⟩

/-- The call that creates `edge-lb-https`, with its outcome. -/
def edgeLbHttpsCall (nb : NodeBalancer) (res : Response) : Call :=
  ⟨.NewNodeBalancerConfig "edge-lb-https" (edgeLbHttpsArgs nb), res⟩

/-- The call that creates `edge-lb-http`, with its outcome. -/
def edgeLbHttpCall (nb : NodeBalancer) (res : Response) : Call :=
  ⟨.NewNodeBalancerConfig "edge-lb-http" (edgeLbHttpArgs nb), res⟩

/-- The call that creates `edge-backend-https`, with its outcome. -/
def edgeBackendHttpsCall (edge : Instance) (nb : NodeBalancer)
    (nbConfigHTTPS : NodeBalancerConfig) (res : Response) : Call :=
  ⟨.NewNodeBalancerNode "edge-backend-https" (edgeBackendHttpsArgs edge nb nbConfigHTTPS), res⟩

/-- The call that creates `edge-backend-http`, with its outcome. -/
def edgeBackendHttpCall (edge : Instance) (nb : NodeBalancer)
    (nbConfigHTTP : NodeBalancerConfig) (res : Response) : Call :=
  ⟨.NewNodeBalancerNode "edge-backend-http" (edgeBackendHttpArgs edge nb nbConfigHTTP), res⟩

/-- The export writes at the end of `ProvisionLinodeEdge`. -/
def linodeExports (lcfg : LinodeConfig) (edge : Instance) (nb : NodeBalancer) :
    List (String × ExportValue) :=
  [("edgeNodeIP", .StringOutput (some edge.IpAddress)),
   ("edgeNodePrivateIP", .StringOutput (some edge.PrivateIpAddress)),
   ("nodeBalancerHostname", .StringOutput (some nb.Hostname)),
   ("nodeBalancerIPv4", .StringOutput (some nb.Ipv4)),
   ("edgeNodeRegion", .String lcfg.Region)]

/-! ## Example inputs -/

/-- A provider that creates every resource it is asked for, except the
resources named in `bad`, whose creation fails with the error `boom`. -/
def exampleProvider (bad : List String) : Provider where
  NewVirtualMachine := fun _ name args =>
    if name ∈ bad then .error (.base "boom") else .ok ⟨args.Name⟩
  NewInstance := fun _ name _ =>
    if name ∈ bad then .error (.base "boom") else .ok ⟨"203.0.113.10", "192.168.128.10"⟩
  NewNodeBalancer := fun _ name _ =>
    if name ∈ bad then .error (.base "boom")
    else .ok ⟨"nb-1", "nb-1.example.net", "203.0.113.20"⟩
  NewNodeBalancerConfig := fun _ name _ =>
    if name ∈ bad then .error (.base "boom") else .ok ⟨"cfg-" ++ name⟩
  NewNodeBalancerNode := fun _ name _ =>
    if name ∈ bad then .error (.base "boom") else .ok ⟨"node-" ++ name⟩

/-- A VM definition with the given name, role and IP. -/
def exampleVM (name role ip : String) : VMDefinition :=
  { Name := name, Description := "", Role := role, IP := ip
    Vmid := 100, Cores := 2, MemoryMB := 4096, DiskGB := 32 }

/-- An infrastructure configuration with the given VM definitions. -/
def exampleInfra (vms : List VMDefinition) : InfraConfig :=
  { VMs := vms, SSHPublicKey := "ssh-ed25519 AAAA", Gateway := "192.168.1.1"
    DNSServer := "192.168.1.1", NodeName := "pve", TemplateVmId := 9000
    Datastore := "local-lvm", Bridge := "vmbr0" }

/-- Dependencies that load the given VM definitions. -/
def exampleDeps (vms : List VMDefinition) : Deps where
  LoadInfraConfig := fun _ => .ok (exampleInfra vms)
  GenerateCloudInitUserData := fun _ _ _ _ => ""

/-- Three VM definitions: one server and two agents. -/
def threeVMs : List VMDefinition :=
  [exampleVM "k3s-server-1" "server" "192.168.1.100",
   exampleVM "k3s-agent-1" "agent" "192.168.1.101",
   exampleVM "k3s-agent-2" "agent" "192.168.1.102"]

/-- A stack configuration with both required keys of the Linode settings. -/
def fullConfig : Config := fun key =>
  if key = "sshPublicKey" then some "ssh-ed25519 AAAA"
  else if key = "linodeRootPassword" then some "hunter2"
  else none

/-- A stack configuration with no key set. -/
def emptyConfig : Config := fun _ => none

/-- Two VM definitions with the same name and different IPs. -/
def sameNameVMs : List VMDefinition :=
  [exampleVM "k3s-node" "server" "192.168.1.100",
   exampleVM "k3s-node" "agent" "192.168.1.101"]

/-- The Linode settings `LoadLinodeConfig` returns for `fullConfig`. -/
def exampleLinode : LinodeConfig :=
  { Region := "us-ord", SSHPublicKey := "ssh-ed25519 AAAA", RootPassword := "hunter2"
    Label := "homelab-edge", HomeEndpoint := "", HomeWgPublicKey := ""
    HomeIngressIP := "192.168.1.200" }

/-- The resource names of the six Linode creations, each with the text
`ProvisionLinodeEdge` puts before the provider error when the creation fails
(the `fmt.Errorf` calls of `linode.go`). -/
def linodeFailureTexts : List (String × String) :=
  [("edge-node", "creating edge node: "),
   ("edge-lb", "creating NodeBalancer: "),
   ("edge-lb-https", "creating NodeBalancer HTTPS config: "),
   ("edge-lb-http", "creating NodeBalancer HTTP config: "),
   ("edge-backend-https", "creating HTTPS backend node: "),
   ("edge-backend-http", "creating HTTP backend node: ")]

/-- Two texts differ at a position inside both. -/
def diverge : List Char → List Char → Bool
  | x :: xs, y :: ys => x != y || diverge xs ys
  | _, _ => false

/-- A provider that creates every resource, except the VM named `bad`, whose
creation fails with an error of the text `msg`. -/
def failingVMProvider (bad msg : String) : Provider :=
  { exampleProvider [] with
    NewVirtualMachine := fun _ name args =>
      if name = bad then .error (.base msg) else .ok ⟨args.Name⟩ }

/-- The words that name a phase. -/
def phaseWords : List String := ["Config", "Plan", "Apply"]

/-! ## Lemmas: maps and texts -/

theorem StringMap.get_set (m : StringMap) (k v k' : String) :
    (m.set k v).get k' = if k' = k then some v else m.get k' := by
  unfold StringMap.set StringMap.get
  by_cases h : k' = k
  · subst h
    simp
  · have hk : (k == k') = false := by
      simp only [beq_eq_false_iff_ne, ne_eq]
      exact fun h' => h h'.symm
    simp only [List.find?_cons, hk, if_neg h]
    congr 1
    induction m with
    | nil => rfl
    | cons p rest ih =>
      by_cases hp : p.1 = k
      · have hp' : (p.1 == k') = false := by
          simp only [beq_eq_false_iff_ne, ne_eq, hp]
          exact fun h' => h h'.symm
        simp [List.filter_cons, hp, List.find?_cons, hk, ih]
      · by_cases hq : p.1 = k'
        · simp [List.filter_cons, List.find?_cons, hq, h]
        · simp [List.filter_cons, hp, List.find?_cons, hq, ih]

theorem StringMap.mem_keys_set (m : StringMap) (k v k' : String) :
    k' ∈ (m.set k v).keys ↔ k' = k ∨ k' ∈ m.keys := by
  unfold StringMap.set StringMap.keys
  simp only [List.map_cons, List.mem_cons, List.mem_map, List.mem_filter, bne_iff_ne, ne_eq]
  constructor
  · rintro (h | ⟨p, ⟨hp, _⟩, rfl⟩)
    · exact Or.inl h
    · exact Or.inr ⟨p, hp, rfl⟩
  · rintro (h | ⟨p, hp, rfl⟩)
    · exact Or.inl h
    · by_cases hk : p.1 = k
      · exact Or.inl hk
      · exact Or.inr ⟨p, ⟨hp, hk⟩, rfl⟩

/-! ## Lemmas: the VM loop -/

theorem Context.requests_record (ctx : Context) (req : Request) (res : Response) :
    (ctx.record req res).requests = ctx.requests ++ [req] := by
  simp [Context.record, Context.requests]

theorem provisionVMs_cons_ok (D : Deps) (P : Provider) (infraCfg : InfraConfig)
    (vmDef : VMDefinition) (rest : List VMDefinition) (s : LoopState) (node : VirtualMachine)
    (h : P.NewVirtualMachine s.ctx.requests vmDef.Name (vmArgs infraCfg vmDef) = .ok node) :
    provisionVMs D P infraCfg (vmDef :: rest) s =
      provisionVMs D P infraCfg rest
        { ctx := s.ctx.record (vmRequest infraCfg vmDef) (.VirtualMachine node)
          vmIPs := s.vmIPs.set vmDef.Name vmDef.IP
          controlPlaneIP :=
            if vmDef.Role = "server" then some vmDef.IP else s.controlPlaneIP } := by
  simp only [provisionVMs, h]

theorem provisionVMs_cons_error (D : Deps) (P : Provider) (infraCfg : InfraConfig)
    (vmDef : VMDefinition) (rest : List VMDefinition) (s : LoopState) (err : GoError)
    (h : P.NewVirtualMachine s.ctx.requests vmDef.Name (vmArgs infraCfg vmDef) = .error err) :
    provisionVMs D P infraCfg (vmDef :: rest) s =
      ({ s with ctx := s.ctx.record (vmRequest infraCfg vmDef) (.failed err) },
        some (.wrapf ("creating VM " ++ vmDef.Name ++ ": ") err)) := by
  simp only [provisionVMs, h]

/-- The loop writes no export and leaves the configuration alone. -/
theorem provisionVMs_exports (D : Deps) (P : Provider) (infraCfg : InfraConfig)
    (vms : List VMDefinition) (s : LoopState) :
    (provisionVMs D P infraCfg vms s).1.ctx.exports = s.ctx.exports ∧
      (provisionVMs D P infraCfg vms s).1.ctx.config = s.ctx.config := by
  induction vms generalizing s with
  | nil => simp [provisionVMs]
  | cons d rest ih =>
    cases h : P.NewVirtualMachine s.ctx.requests d.Name (vmArgs infraCfg d) with
    | error err => simp [provisionVMs_cons_error D P infraCfg d rest s err h, Context.record]
    | ok node =>
      rw [provisionVMs_cons_ok D P infraCfg d rest s node h]
      have := ih { ctx := s.ctx.record (vmRequest infraCfg d) (.VirtualMachine node)
                   vmIPs := s.vmIPs.set d.Name d.IP
                   controlPlaneIP := if d.Role = "server" then some d.IP else s.controlPlaneIP }
      simpa [Context.record] using this

/-- A loop that completes has made one successful call per definition, in
the order of the list. -/
theorem provisionVMs_ok_calls (D : Deps) (P : Provider) (infraCfg : InfraConfig)
    (vms : List VMDefinition) (s : LoopState)
    (hok : (provisionVMs D P infraCfg vms s).2 = none) :
    ∃ new : List Call,
      (provisionVMs D P infraCfg vms s).1.ctx.calls = s.ctx.calls ++ new ∧
        new.map Call.req = vms.map (vmRequest infraCfg) ∧
        ∀ c ∈ new, c.succeeded = true := by
  induction vms generalizing s with
  | nil => exact ⟨[], by simp [provisionVMs]⟩
  | cons d rest ih =>
    cases h : P.NewVirtualMachine s.ctx.requests d.Name (vmArgs infraCfg d) with
    | error err => simp [provisionVMs_cons_error D P infraCfg d rest s err h] at hok
    | ok node =>
      rw [provisionVMs_cons_ok D P infraCfg d rest s node h] at hok ⊢
      obtain ⟨new, h1, h2, h3⟩ := ih _ hok
      refine ⟨⟨vmRequest infraCfg d, .VirtualMachine node⟩ :: new, ?_, ?_, ?_⟩
      · rw [h1]; simp [Context.record]
      · simp [h2]
      · intro c hc
        rcases List.mem_cons.mp hc with rfl | hc
        · rfl
        · exact h3 c hc

/-- A loop that returns an error stopped at one definition: the definitions
before it were created, its own creation failed, and nothing follows. -/
theorem provisionVMs_error (D : Deps) (P : Provider) (infraCfg : InfraConfig)
    (vms : List VMDefinition) (s : LoopState) (err : GoError)
    (herr : (provisionVMs D P infraCfg vms s).2 = some err) :
    ∃ (front : List VMDefinition) (d : VMDefinition) (back : List VMDefinition)
      (e : GoError) (new : List Call),
      vms = front ++ d :: back ∧
        err = .wrapf ("creating VM " ++ d.Name ++ ": ") e ∧
        (provisionVMs D P infraCfg vms s).1.ctx.calls =
          s.ctx.calls ++ new ++ [⟨vmRequest infraCfg d, .failed e⟩] ∧
        new.map Call.req = front.map (vmRequest infraCfg) ∧
        ∀ c ∈ new, c.succeeded = true := by
  induction vms generalizing s with
  | nil => simp [provisionVMs] at herr
  | cons d rest ih =>
    cases h : P.NewVirtualMachine s.ctx.requests d.Name (vmArgs infraCfg d) with
    | error e =>
      rw [provisionVMs_cons_error D P infraCfg d rest s e h] at herr ⊢
      refine ⟨[], d, rest, e, [], rfl, ?_, ?_, rfl, ?_⟩
      · simpa using herr.symm
      · simp [Context.record]
      · simp
    | ok node =>
      rw [provisionVMs_cons_ok D P infraCfg d rest s node h] at herr ⊢
      obtain ⟨front, d', back, e, new, h1, h2, h3, h4, h5⟩ := ih _ herr
      refine ⟨d :: front, d', back, e,
        ⟨vmRequest infraCfg d, .VirtualMachine node⟩ :: new, ?_, h2, ?_, ?_, ?_⟩
      · simp [h1]
      · rw [h3]; simp [Context.record]
      · simp [h4]
      · intro c hc
        rcases List.mem_cons.mp hc with rfl | hc
        · rfl
        · exact h5 c hc

/-- The loop from the provider side: when the creations of the definitions
`front` succeed and the creation of `d` fails with `e`, the loop returns the
wrapped `e` after one successful call per definition of `front` and the
failed call for `d`. -/
theorem provisionVMs_fail_at (D : Deps) (P : Provider) (infraCfg : InfraConfig)
    (front : List VMDefinition) (d : VMDefinition) (back : List VMDefinition) (e : GoError)
    (s : LoopState)
    (hfront : ∀ (i : Nat) (v : VMDefinition), front[i]? = some v →
      ∃ node, P.NewVirtualMachine (s.ctx.requests ++ (front.take i).map (vmRequest infraCfg))
        v.Name (vmArgs infraCfg v) = .ok node)
    (hd : P.NewVirtualMachine (s.ctx.requests ++ front.map (vmRequest infraCfg))
        d.Name (vmArgs infraCfg d) = .error e) :
    (provisionVMs D P infraCfg (front ++ d :: back) s).2 =
        some (.wrapf ("creating VM " ++ d.Name ++ ": ") e) ∧
      ∃ new : List Call,
        (provisionVMs D P infraCfg (front ++ d :: back) s).1.ctx.calls =
          s.ctx.calls ++ new ++ [⟨vmRequest infraCfg d, .failed e⟩] ∧
        new.map Call.req = front.map (vmRequest infraCfg) ∧
        ∀ c ∈ new, c.succeeded = true := by
  induction front generalizing s with
  | nil =>
    have hd' : P.NewVirtualMachine s.ctx.requests d.Name (vmArgs infraCfg d) = .error e := by
      simpa using hd
    rw [List.nil_append, provisionVMs_cons_error D P infraCfg d back s e hd']
    exact ⟨rfl, [], by simp [Context.record], rfl, by simp⟩
  | cons a rest ih =>
    obtain ⟨node, hnode⟩ := hfront 0 a (by simp)
    have hnode' : P.NewVirtualMachine s.ctx.requests a.Name (vmArgs infraCfg a) = .ok node := by
      simpa using hnode
    rw [List.cons_append, provisionVMs_cons_ok D P infraCfg a (rest ++ d :: back) s node hnode']
    have key := ih
      { ctx := s.ctx.record (vmRequest infraCfg a) (.VirtualMachine node)
        vmIPs := s.vmIPs.set a.Name a.IP
        controlPlaneIP := if a.Role = "server" then some a.IP else s.controlPlaneIP }
      (by
        intro i v hv
        have := hfront (i + 1) v (by simpa using hv)
        simpa [Context.requests_record] using this)
      (by simpa [Context.requests_record] using hd)
    obtain ⟨h1, new, h2, h3, h4⟩ := key
    refine ⟨h1, ⟨vmRequest infraCfg a, .VirtualMachine node⟩ :: new, ?_, ?_, ?_⟩
    · rw [h2]; simp [Context.record]
    · simp [h3]
    · intro c hc
      rcases List.mem_cons.mp hc with rfl | hc
      · rfl
      · exact h4 c hc

/-- A loop that completes leaves alone the keys of `vmIPs` that name no
definition. -/
theorem provisionVMs_ok_get_other (D : Deps) (P : Provider) (infraCfg : InfraConfig)
    (vms : List VMDefinition) (s : LoopState) (k : String)
    (hok : (provisionVMs D P infraCfg vms s).2 = none)
    (hk : ∀ v ∈ vms, v.Name ≠ k) :
    (provisionVMs D P infraCfg vms s).1.vmIPs.get k = s.vmIPs.get k := by
  induction vms generalizing s with
  | nil => simp [provisionVMs]
  | cons d rest ih =>
    cases h : P.NewVirtualMachine s.ctx.requests d.Name (vmArgs infraCfg d) with
    | error err => simp [provisionVMs_cons_error D P infraCfg d rest s err h] at hok
    | ok node =>
      rw [provisionVMs_cons_ok D P infraCfg d rest s node h] at hok ⊢
      rw [ih _ hok (fun v hv => hk v (List.mem_cons_of_mem _ hv))]
      have hne : k ≠ d.Name := fun h' => hk d (List.mem_cons_self _ _) h'.symm
      simp [StringMap.get_set, hne]

/-- After a loop that completes, `vmIPs` maps a name to the IP of the last
definition of that name. -/
theorem provisionVMs_ok_get_last (D : Deps) (P : Provider) (infraCfg : InfraConfig)
    (front : List VMDefinition) (d : VMDefinition) (back : List VMDefinition) (s : LoopState)
    (hok : (provisionVMs D P infraCfg (front ++ d :: back) s).2 = none)
    (hback : ∀ v ∈ back, v.Name ≠ d.Name) :
    (provisionVMs D P infraCfg (front ++ d :: back) s).1.vmIPs.get d.Name = some d.IP := by
  induction front generalizing s with
  | nil =>
    rw [List.nil_append] at hok ⊢
    cases h : P.NewVirtualMachine s.ctx.requests d.Name (vmArgs infraCfg d) with
    | error err => simp [provisionVMs_cons_error D P infraCfg d back s err h] at hok
    | ok node =>
      rw [provisionVMs_cons_ok D P infraCfg d back s node h] at hok ⊢
      rw [provisionVMs_ok_get_other D P infraCfg back _ d.Name hok hback]
      simp [StringMap.get_set]
  | cons a rest ih =>
    rw [List.cons_append] at hok ⊢
    cases h : P.NewVirtualMachine s.ctx.requests a.Name (vmArgs infraCfg a) with
    | error err =>
      simp [provisionVMs_cons_error D P infraCfg a (rest ++ d :: back) s err h] at hok
    | ok node =>
      rw [provisionVMs_cons_ok D P infraCfg a (rest ++ d :: back) s node h] at hok ⊢
      exact ih _ hok

/-- After a loop that completes, the keys of `vmIPs` are the keys it had and
the names of the definitions. -/
theorem provisionVMs_ok_keys (D : Deps) (P : Provider) (infraCfg : InfraConfig)
    (vms : List VMDefinition) (s : LoopState) (k : String)
    (hok : (provisionVMs D P infraCfg vms s).2 = none) :
    k ∈ (provisionVMs D P infraCfg vms s).1.vmIPs.keys ↔
      k ∈ s.vmIPs.keys ∨ ∃ v ∈ vms, v.Name = k := by
  induction vms generalizing s with
  | nil => simp [provisionVMs]
  | cons d rest ih =>
    cases h : P.NewVirtualMachine s.ctx.requests d.Name (vmArgs infraCfg d) with
    | error err => simp [provisionVMs_cons_error D P infraCfg d rest s err h] at hok
    | ok node =>
      rw [provisionVMs_cons_ok D P infraCfg d rest s node h] at hok ⊢
      rw [ih _ hok]
      simp only [StringMap.mem_keys_set, List.mem_cons, exists_eq_or_imp]
      constructor
      · rintro ((h1 | h1) | h1)
        · exact Or.inr (Or.inl h1.symm)
        · exact Or.inl h1
        · exact Or.inr (Or.inr h1)
      · rintro (h1 | h1 | h1)
        · exact Or.inl (Or.inr h1)
        · exact Or.inl (Or.inl h1.symm)
        · exact Or.inr h1

/-- A loop that completes over definitions none of which is a server leaves
`controlPlaneIP` as it was. -/
theorem provisionVMs_ok_cp_other (D : Deps) (P : Provider) (infraCfg : InfraConfig)
    (vms : List VMDefinition) (s : LoopState)
    (hok : (provisionVMs D P infraCfg vms s).2 = none)
    (hrole : ∀ v ∈ vms, v.Role ≠ "server") :
    (provisionVMs D P infraCfg vms s).1.controlPlaneIP = s.controlPlaneIP := by
  induction vms generalizing s with
  | nil => simp [provisionVMs]
  | cons d rest ih =>
    cases h : P.NewVirtualMachine s.ctx.requests d.Name (vmArgs infraCfg d) with
    | error err => simp [provisionVMs_cons_error D P infraCfg d rest s err h] at hok
    | ok node =>
      rw [provisionVMs_cons_ok D P infraCfg d rest s node h] at hok ⊢
      rw [ih _ hok (fun v hv => hrole v (List.mem_cons_of_mem _ hv))]
      simp [hrole d (List.mem_cons_self _ _)]

/-- After a loop that completes, `controlPlaneIP` is the IP of the last
server definition. -/
theorem provisionVMs_ok_cp_last (D : Deps) (P : Provider) (infraCfg : InfraConfig)
    (front : List VMDefinition) (d : VMDefinition) (back : List VMDefinition) (s : LoopState)
    (hok : (provisionVMs D P infraCfg (front ++ d :: back) s).2 = none)
    (hd : d.Role = "server") (hback : ∀ v ∈ back, v.Role ≠ "server") :
    (provisionVMs D P infraCfg (front ++ d :: back) s).1.controlPlaneIP = some d.IP := by
  induction front generalizing s with
  | nil =>
    rw [List.nil_append] at hok ⊢
    cases h : P.NewVirtualMachine s.ctx.requests d.Name (vmArgs infraCfg d) with
    | error err => simp [provisionVMs_cons_error D P infraCfg d back s err h] at hok
    | ok node =>
      rw [provisionVMs_cons_ok D P infraCfg d back s node h] at hok ⊢
      rw [provisionVMs_ok_cp_other D P infraCfg back _ hok hback]
      simp [hd]
  | cons a rest ih =>
    rw [List.cons_append] at hok ⊢
    cases h : P.NewVirtualMachine s.ctx.requests a.Name (vmArgs infraCfg a) with
    | error err =>
      simp [provisionVMs_cons_error D P infraCfg a (rest ++ d :: back) s err h] at hok
    | ok node =>
      rw [provisionVMs_cons_ok D P infraCfg a (rest ++ d :: back) s node h] at hok ⊢
      exact ih _ hok

/-! ## Lemmas: `ProvisionLinodeEdge` -/

/-- The seven ways `ProvisionLinodeEdge` ends: one of the six creations
fails, after the ones before it succeeded, or all six succeed and the five
exports are written. -/
theorem ProvisionLinodeEdge_cases (P : Provider) (ctx : Context) (lcfg : LinodeConfig) :
    (∃ e, ProvisionLinodeEdge P ctx lcfg =
      ({ ctx with calls := ctx.calls ++ [edgeNodeCall lcfg (.failed e)] },
        some (.wrapf "creating edge node: " e))) ∨
    (∃ edge e, ProvisionLinodeEdge P ctx lcfg =
      ({ ctx with calls := ctx.calls ++
          [edgeNodeCall lcfg (.Instance edge), edgeLbCall lcfg (.failed e)] },
        some (.wrapf "creating NodeBalancer: " e))) ∨
    (∃ edge nb e, ProvisionLinodeEdge P ctx lcfg =
      ({ ctx with calls := ctx.calls ++
          [edgeNodeCall lcfg (.Instance edge), edgeLbCall lcfg (.NodeBalancer nb),
           edgeLbHttpsCall nb (.failed e)] },
        some (.wrapf "creating NodeBalancer HTTPS config: " e))) ∨
    (∃ edge nb c1 e, ProvisionLinodeEdge P ctx lcfg =
      ({ ctx with calls := ctx.calls ++
          [edgeNodeCall lcfg (.Instance edge), edgeLbCall lcfg (.NodeBalancer nb),
           edgeLbHttpsCall nb (.NodeBalancerConfig c1), edgeLbHttpCall nb (.failed e)] },
        some (.wrapf "creating NodeBalancer HTTP config: " e))) ∨
    (∃ edge nb c1 c2 e, ProvisionLinodeEdge P ctx lcfg =
      ({ ctx with calls := ctx.calls ++
          [edgeNodeCall lcfg (.Instance edge), edgeLbCall lcfg (.NodeBalancer nb),
           edgeLbHttpsCall nb (.NodeBalancerConfig c1),
           edgeLbHttpCall nb (.NodeBalancerConfig c2),
           edgeBackendHttpsCall edge nb c1 (.failed e)] },
        some (.wrapf "creating HTTPS backend node: " e))) ∨
    (∃ edge nb c1 c2 n1 e, ProvisionLinodeEdge P ctx lcfg =
      ({ ctx with calls := ctx.calls ++
          [edgeNodeCall lcfg (.Instance edge), edgeLbCall lcfg (.NodeBalancer nb),
           edgeLbHttpsCall nb (.NodeBalancerConfig c1),
           edgeLbHttpCall nb (.NodeBalancerConfig c2),
           edgeBackendHttpsCall edge nb c1 (.NodeBalancerNode n1),
           edgeBackendHttpCall edge nb c2 (.failed e)] },
        some (.wrapf "creating HTTP backend node: " e))) ∨
    (∃ edge nb c1 c2 n1 n2,
      P.NewInstance ctx.requests "edge-node" (edgeNodeArgs lcfg) = .ok edge ∧
      ProvisionLinodeEdge P ctx lcfg =
      ({ ctx with
          calls := ctx.calls ++
            [edgeNodeCall lcfg (.Instance edge), edgeLbCall lcfg (.NodeBalancer nb),
             edgeLbHttpsCall nb (.NodeBalancerConfig c1),
             edgeLbHttpCall nb (.NodeBalancerConfig c2),
             edgeBackendHttpsCall edge nb c1 (.NodeBalancerNode n1),
             edgeBackendHttpCall edge nb c2 (.NodeBalancerNode n2)]
          exports := ctx.exports ++ linodeExports lcfg edge nb },
        none)) := by
  generalize hr : ProvisionLinodeEdge P ctx lcfg = r
  unfold ProvisionLinodeEdge at hr
  split at hr
  · next e _ =>
    subst hr
    exact Or.inl ⟨e, by simp [Context.record, edgeNodeCall]⟩
  · next edge hedge =>
    dsimp only at hr
    split at hr
    · next e _ =>
      subst hr
      exact Or.inr (Or.inl ⟨edge, e, by simp [Context.record, edgeNodeCall, edgeLbCall]⟩)
    · next nb _ =>
      split at hr
      · next e _ =>
        subst hr
        exact Or.inr (Or.inr (Or.inl ⟨edge, nb, e, by
          simp [Context.record, edgeNodeCall, edgeLbCall, edgeLbHttpsCall]⟩))
      · next c1 _ =>
        split at hr
        · next e _ =>
          subst hr
          exact Or.inr (Or.inr (Or.inr (Or.inl ⟨edge, nb, c1, e, by
            simp [Context.record, edgeNodeCall, edgeLbCall, edgeLbHttpsCall,
              edgeLbHttpCall]⟩)))
        · next c2 _ =>
          split at hr
          · next e _ =>
            subst hr
            exact Or.inr (Or.inr (Or.inr (Or.inr (Or.inl ⟨edge, nb, c1, c2, e, by
              simp [Context.record, edgeNodeCall, edgeLbCall, edgeLbHttpsCall,
                edgeLbHttpCall, edgeBackendHttpsCall]⟩))))
          · next n1 _ =>
            split at hr
            · next e _ =>
              subst hr
              exact Or.inr (Or.inr (Or.inr (Or.inr (Or.inr (Or.inl
                ⟨edge, nb, c1, c2, n1, e, by
                  simp [Context.record, edgeNodeCall, edgeLbCall, edgeLbHttpsCall,
                    edgeLbHttpCall, edgeBackendHttpsCall, edgeBackendHttpCall]⟩)))))
            · next n2 _ =>
              subst hr
              exact Or.inr (Or.inr (Or.inr (Or.inr (Or.inr (Or.inr
                ⟨edge, nb, c1, c2, n1, n2, hedge, by
                  simp [Context.record, Context.Export, linodeExports, edgeNodeCall,
                    edgeLbCall, edgeLbHttpsCall, edgeLbHttpCall, edgeBackendHttpsCall,
                    edgeBackendHttpCall]⟩)))))

/-! ## Lemmas: `LoadLinodeConfig` and `main` -/

theorem LoadLinodeConfig_ok (ctx : Context) (ssh pw : String)
    (hssh : ctx.config "sshPublicKey" = some ssh)
    (hpw : ctx.config "linodeRootPassword" = some pw) :
    LoadLinodeConfig ctx = .ok
      ({ Region :=
          if ctx.config.Get "linodeRegion" = "" then "us-ord" else ctx.config.Get "linodeRegion"
         SSHPublicKey := ssh
         RootPassword := pw
         Label :=
          if ctx.config.Get "linodeLabel" = "" then "homelab-edge"
          else ctx.config.Get "linodeLabel"
         HomeEndpoint := ctx.config.Get "homeEndpoint"
         HomeWgPublicKey := ctx.config.Get "homeWgPublicKey"
         HomeIngressIP :=
          if ctx.config.Get "homeIngressIP" = "" then "192.168.1.200"
          else ctx.config.Get "homeIngressIP" }, none) := by
  simp [LoadLinodeConfig, Config.Require, Config.RequireSecret, Config.Get, hssh, hpw, bind,
    Except.bind, pure, Except.pure]

theorem LoadLinodeConfig_missing_ssh (ctx : Context)
    (hssh : ctx.config "sshPublicKey" = none) :
    LoadLinodeConfig ctx = .error "sshPublicKey" := by
  simp [LoadLinodeConfig, Config.Require, hssh, bind, Except.bind]

theorem LoadLinodeConfig_missing_pw (ctx : Context) (ssh : String)
    (hssh : ctx.config "sshPublicKey" = some ssh)
    (hpw : ctx.config "linodeRootPassword" = none) :
    LoadLinodeConfig ctx = .error "linodeRootPassword" := by
  simp [LoadLinodeConfig, Config.Require, Config.RequireSecret, hssh, hpw, bind, Except.bind]

/-- The error of the pair `LoadLinodeConfig` returns is always nil. -/
theorem LoadLinodeConfig_error_nil (ctx : Context) (l : LinodeConfig) (e : Option GoError)
    (h : LoadLinodeConfig ctx = .ok (l, e)) : e = none := by
  cases hssh : ctx.config "sshPublicKey" with
  | none => rw [LoadLinodeConfig_missing_ssh ctx hssh] at h; cases h
  | some ssh =>
    cases hpw : ctx.config "linodeRootPassword" with
    | none => rw [LoadLinodeConfig_missing_pw ctx ssh hssh hpw] at h; cases h
    | some pw =>
      rw [LoadLinodeConfig_ok ctx ssh pw hssh hpw] at h
      injection h with h
      exact (Prod.mk.inj h).2.symm

/-- The five ways `main` ends. -/
theorem main_cases (D : Deps) (P : Provider) (ctx : Context) :
    (∃ e, D.LoadInfraConfig ctx = .error e ∧
      main D P ctx = (ctx, .returned (some (.wrapf "loading infrastructure config: " e)))) ∨
    (∃ infraCfg err, D.LoadInfraConfig ctx = .ok infraCfg ∧
      (provisionVMs D P infraCfg infraCfg.VMs ⟨ctx, [], none⟩).2 = some err ∧
      main D P ctx =
        ((provisionVMs D P infraCfg infraCfg.VMs ⟨ctx, [], none⟩).1.ctx,
          .returned (some err))) ∨
    (∃ infraCfg key, D.LoadInfraConfig ctx = .ok infraCfg ∧
      (provisionVMs D P infraCfg infraCfg.VMs ⟨ctx, [], none⟩).2 = none ∧
      LoadLinodeConfig
        (proxmoxExports infraCfg (provisionVMs D P infraCfg infraCfg.VMs ⟨ctx, [], none⟩).1) =
          .error key ∧
      main D P ctx =
        (proxmoxExports infraCfg (provisionVMs D P infraCfg infraCfg.VMs ⟨ctx, [], none⟩).1,
          .panicked key)) ∨
    (∃ infraCfg l err, D.LoadInfraConfig ctx = .ok infraCfg ∧
      (provisionVMs D P infraCfg infraCfg.VMs ⟨ctx, [], none⟩).2 = none ∧
      LoadLinodeConfig
        (proxmoxExports infraCfg (provisionVMs D P infraCfg infraCfg.VMs ⟨ctx, [], none⟩).1) =
          .ok (l, none) ∧
      (ProvisionLinodeEdge P
        (proxmoxExports infraCfg (provisionVMs D P infraCfg infraCfg.VMs ⟨ctx, [], none⟩).1)
        l).2 = some err ∧
      main D P ctx =
        ((ProvisionLinodeEdge P
          (proxmoxExports infraCfg (provisionVMs D P infraCfg infraCfg.VMs ⟨ctx, [], none⟩).1)
          l).1, .returned (some (.wrapf "provisioning linode edge: " err)))) ∨
    (∃ infraCfg l, D.LoadInfraConfig ctx = .ok infraCfg ∧
      (provisionVMs D P infraCfg infraCfg.VMs ⟨ctx, [], none⟩).2 = none ∧
      LoadLinodeConfig
        (proxmoxExports infraCfg (provisionVMs D P infraCfg infraCfg.VMs ⟨ctx, [], none⟩).1) =
          .ok (l, none) ∧
      (ProvisionLinodeEdge P
        (proxmoxExports infraCfg (provisionVMs D P infraCfg infraCfg.VMs ⟨ctx, [], none⟩).1)
        l).2 = none ∧
      main D P ctx =
        ((ProvisionLinodeEdge P
          (proxmoxExports infraCfg (provisionVMs D P infraCfg infraCfg.VMs ⟨ctx, [], none⟩).1)
          l).1, .returned none)) := by
  generalize hr : main D P ctx = r
  unfold main at hr
  split at hr
  · next e he =>
    exact Or.inl ⟨e, he, hr.symm⟩
  · next infraCfg hcfg =>
    split at hr
    · next s err hloop =>
      refine Or.inr (Or.inl ⟨infraCfg, err, hcfg, ?_, ?_⟩)
      · rw [hloop]
      · rw [hloop]; exact hr.symm
    · next s hloop =>
      dsimp only at hr
      have hs : (provisionVMs D P infraCfg infraCfg.VMs ⟨ctx, [], none⟩).1 = s := by rw [hloop]
      have hn : (provisionVMs D P infraCfg infraCfg.VMs ⟨ctx, [], none⟩).2 = none := by
        rw [hloop]
      split at hr
      · next key hkey =>
        exact Or.inr (Or.inr (Or.inl ⟨infraCfg, key, hcfg, hn, by rw [hs]; exact hkey,
          by rw [hs]; exact hr.symm⟩))
      · next l err hl =>
        have := LoadLinodeConfig_error_nil _ _ _ hl
        cases this
      · next l hl =>
        split at hr
        · next c err hp =>
          refine Or.inr (Or.inr (Or.inr (Or.inl
            ⟨infraCfg, l, err, hcfg, hn, by rw [hs]; exact hl, ?_, ?_⟩)))
          · rw [hs, hp]
          · rw [hs, hp]; exact hr.symm
        · next c hp =>
          refine Or.inr (Or.inr (Or.inr (Or.inr
            ⟨infraCfg, l, hcfg, hn, by rw [hs]; exact hl, ?_, ?_⟩)))
          · rw [hs, hp]
          · rw [hs, hp]; exact hr.symm

/-- A list with an element at index `k` splits around it. -/
theorem split_at_index {α : Type} (l : List α) (k : Nat) (a : α) (h : l[k]? = some a) :
    l = l.take k ++ a :: l.drop (k + 1) := by
  obtain ⟨hk, rfl⟩ := List.getElem?_eq_some.mp h
  rw [← List.drop_eq_getElem_cons hk, List.take_append_drop]

theorem start_requests (config : Config) : (Context.start config).requests = [] := rfl

/-- A run whose VM loop returns an error ends with that error, in the context
the loop left. -/
theorem run_of_loop_error (D : Deps) (P : Provider) (config : Config) (infraCfg : InfraConfig)
    (err : GoError) (hcfg : D.LoadInfraConfig (Context.start config) = .ok infraCfg)
    (herr : (provisionVMs D P infraCfg infraCfg.VMs ⟨Context.start config, [], none⟩).2 =
      some err) :
    run D P config =
      ((provisionVMs D P infraCfg infraCfg.VMs ⟨Context.start config, [], none⟩).1.ctx,
        .returned (some err)) := by
  unfold run
  rcases main_cases D P (Context.start config) with
    ⟨e, h, _⟩ | ⟨c, err', h, h2, h3⟩ | ⟨c, _, h, h2, _⟩ | ⟨c, _, _, h, h2, _⟩ | ⟨c, _, h, h2, _⟩
  · rw [hcfg] at h; cases h
  · rw [hcfg] at h; cases h
    rw [herr] at h2; cases h2
    exact h3
  · rw [hcfg] at h; cases h
    rw [herr] at h2; cases h2
  · rw [hcfg] at h; cases h
    rw [herr] at h2; cases h2
  · rw [hcfg] at h; cases h
    rw [herr] at h2; cases h2

/-- The name of the VM occurs in the text of the error `main` returns for
it. -/
theorem vm_name_occursIn (name : String) (e : GoError) :
    occursIn name (GoError.wrapf ("creating VM " ++ name ++ ": ") e).Error := by
  unfold occursIn GoError.Error
  simp only [String.data_append]
  exact ⟨"creating VM ".data, ": ".data ++ e.Error.data, by simp [List.append_assoc]⟩

/-- The exports of `ProvisionLinodeEdge`: none when it returns an error, the
five Linode exports when it returns nil. -/
theorem ProvisionLinodeEdge_exports (P : Provider) (ctx : Context) (lcfg : LinodeConfig) :
    ((∃ err, (ProvisionLinodeEdge P ctx lcfg).2 = some err) ∧
        (ProvisionLinodeEdge P ctx lcfg).1.exports = ctx.exports) ∨
      ((ProvisionLinodeEdge P ctx lcfg).2 = none ∧
        ∃ edge nb, (ProvisionLinodeEdge P ctx lcfg).1.exports =
          ctx.exports ++ linodeExports lcfg edge nb) := by
  rcases ProvisionLinodeEdge_cases P ctx lcfg with
    ⟨e, h⟩ | ⟨_, e, h⟩ | ⟨_, _, e, h⟩ | ⟨_, _, _, e, h⟩ | ⟨_, _, _, _, e, h⟩ |
    ⟨_, _, _, _, _, e, h⟩ | ⟨edge, nb, _, _, _, _, _, h⟩
  all_goals rw [h]
  · exact Or.inl ⟨⟨_, rfl⟩, rfl⟩
  · exact Or.inl ⟨⟨_, rfl⟩, rfl⟩
  · exact Or.inl ⟨⟨_, rfl⟩, rfl⟩
  · exact Or.inl ⟨⟨_, rfl⟩, rfl⟩
  · exact Or.inl ⟨⟨_, rfl⟩, rfl⟩
  · exact Or.inl ⟨⟨_, rfl⟩, rfl⟩
  · exact Or.inr ⟨rfl, edge, nb, rfl⟩

/-- The export writes of the section `Proxmox Stack Exports`, from the start
of a run. -/
theorem proxmoxExports_exports (D : Deps) (P : Provider) (config : Config)
    (infraCfg : InfraConfig) :
    (proxmoxExports infraCfg
      (provisionVMs D P infraCfg infraCfg.VMs ⟨Context.start config, [], none⟩).1).exports =
      [("vmIPs", .StringMap
          (provisionVMs D P infraCfg infraCfg.VMs ⟨Context.start config, [], none⟩).1.vmIPs),
       ("controlPlaneIP", .StringOutput
          (provisionVMs D P infraCfg infraCfg.VMs
            ⟨Context.start config, [], none⟩).1.controlPlaneIP),
       ("nodeName", .String infraCfg.NodeName),
       ("vmCount", .Int infraCfg.VMs.length)] := by
  have h : (provisionVMs D P infraCfg infraCfg.VMs
      ⟨Context.start config, [], none⟩).1.ctx.exports = [] := by
    rw [(provisionVMs_exports D P infraCfg infraCfg.VMs ⟨Context.start config, [], none⟩).1]
    rfl
  simp only [proxmoxExports, Context.Export, h, List.nil_append, List.cons_append]

/-- The export writes of a run whose VM loop completes: the four Proxmox
exports, then nothing or the five Linode exports. -/
theorem run_exports_of_loop_ok (D : Deps) (P : Provider) (config : Config)
    (infraCfg : InfraConfig) (hcfg : D.LoadInfraConfig (Context.start config) = .ok infraCfg)
    (hok : (provisionVMs D P infraCfg infraCfg.VMs ⟨Context.start config, [], none⟩).2 = none) :
    ∃ rest : List (String × ExportValue),
      (run D P config).1.exports =
        [("vmIPs", .StringMap
            (provisionVMs D P infraCfg infraCfg.VMs ⟨Context.start config, [], none⟩).1.vmIPs),
         ("controlPlaneIP", .StringOutput
            (provisionVMs D P infraCfg infraCfg.VMs
              ⟨Context.start config, [], none⟩).1.controlPlaneIP),
         ("nodeName", .String infraCfg.NodeName),
         ("vmCount", .Int infraCfg.VMs.length)] ++ rest ∧
      (rest = [] ∨ ∃ l edge nb, rest = linodeExports l edge nb) := by
  unfold run
  rcases main_cases D P (Context.start config) with
    ⟨e, h, _⟩ | ⟨c, err', h, h2, h3⟩ | ⟨c, key, h, h2, h3, h4⟩ |
    ⟨c, l, err, h, h2, h3, h4, h5⟩ | ⟨c, l, h, h2, h3, h4, h5⟩
  · rw [hcfg] at h; cases h
  · rw [hcfg] at h; cases h
    rw [hok] at h2; cases h2
  · rw [hcfg] at h; cases h
    rw [h4]
    exact ⟨[], by rw [proxmoxExports_exports]; simp, Or.inl rfl⟩
  · rw [hcfg] at h; cases h
    rw [h5]
    rcases ProvisionLinodeEdge_exports P _ l with ⟨_, hx⟩ | ⟨hn, _⟩
    · exact ⟨[], by rw [hx, proxmoxExports_exports]; simp, Or.inl rfl⟩
    · rw [hn] at h4; cases h4
  · rw [hcfg] at h; cases h
    rw [h5]
    rcases ProvisionLinodeEdge_exports P _ l with ⟨⟨_, hs⟩, _⟩ | ⟨_, edge, nb, hx⟩
    · rw [hs] at h4; cases h4
    · exact ⟨linodeExports l edge nb, by rw [hx, proxmoxExports_exports],
        Or.inr ⟨l, edge, nb, rfl⟩⟩

/-- The value a key of the Proxmox exports has at the end of a run whose VM
loop completes. -/
theorem exported_of_exports (ctx : Context) (a b c d : ExportValue)
    (rest : List (String × ExportValue))
    (h : ctx.exports =
      [("vmIPs", a), ("controlPlaneIP", b), ("nodeName", c), ("vmCount", d)] ++ rest)
    (hrest : rest = [] ∨ ∃ l edge nb, rest = linodeExports l edge nb) :
    ctx.exported "vmIPs" = some a ∧ ctx.exported "controlPlaneIP" = some b ∧
      ctx.exported "nodeName" = some c ∧ ctx.exported "vmCount" = some d := by
  unfold Context.exported
  rw [h]
  rcases hrest with rfl | ⟨l, edge, nb, rfl⟩
  · simp [List.find?_cons]
  · simp [linodeExports, List.find?_cons]

/-- The calls `ProvisionLinodeEdge` makes, in its seven ways of ending. -/
theorem linodeCalls_cases (P : Provider) (ctx : Context) (lcfg : LinodeConfig) :
    (∃ e, (ProvisionLinodeEdge P ctx lcfg).2 = some (.wrapf "creating edge node: " e) ∧
      linodeCalls P ctx lcfg = [edgeNodeCall lcfg (.failed e)]) ∨
    (∃ edge e, (ProvisionLinodeEdge P ctx lcfg).2 = some (.wrapf "creating NodeBalancer: " e) ∧
      linodeCalls P ctx lcfg =
        [edgeNodeCall lcfg (.Instance edge), edgeLbCall lcfg (.failed e)]) ∨
    (∃ edge nb e,
      (ProvisionLinodeEdge P ctx lcfg).2 =
        some (.wrapf "creating NodeBalancer HTTPS config: " e) ∧
      linodeCalls P ctx lcfg =
        [edgeNodeCall lcfg (.Instance edge), edgeLbCall lcfg (.NodeBalancer nb),
         edgeLbHttpsCall nb (.failed e)]) ∨
    (∃ edge nb c1 e,
      (ProvisionLinodeEdge P ctx lcfg).2 =
        some (.wrapf "creating NodeBalancer HTTP config: " e) ∧
      linodeCalls P ctx lcfg =
        [edgeNodeCall lcfg (.Instance edge), edgeLbCall lcfg (.NodeBalancer nb),
         edgeLbHttpsCall nb (.NodeBalancerConfig c1), edgeLbHttpCall nb (.failed e)]) ∨
    (∃ edge nb c1 c2 e,
      (ProvisionLinodeEdge P ctx lcfg).2 = some (.wrapf "creating HTTPS backend node: " e) ∧
      linodeCalls P ctx lcfg =
        [edgeNodeCall lcfg (.Instance edge), edgeLbCall lcfg (.NodeBalancer nb),
         edgeLbHttpsCall nb (.NodeBalancerConfig c1),
         edgeLbHttpCall nb (.NodeBalancerConfig c2),
         edgeBackendHttpsCall edge nb c1 (.failed e)]) ∨
    (∃ edge nb c1 c2 n1 e,
      (ProvisionLinodeEdge P ctx lcfg).2 = some (.wrapf "creating HTTP backend node: " e) ∧
      linodeCalls P ctx lcfg =
        [edgeNodeCall lcfg (.Instance edge), edgeLbCall lcfg (.NodeBalancer nb),
         edgeLbHttpsCall nb (.NodeBalancerConfig c1),
         edgeLbHttpCall nb (.NodeBalancerConfig c2),
         edgeBackendHttpsCall edge nb c1 (.NodeBalancerNode n1),
         edgeBackendHttpCall edge nb c2 (.failed e)]) ∨
    (∃ edge nb c1 c2 n1 n2,
      P.NewInstance ctx.requests "edge-node" (edgeNodeArgs lcfg) = .ok edge ∧
      (ProvisionLinodeEdge P ctx lcfg).2 = none ∧
      linodeCalls P ctx lcfg =
        [edgeNodeCall lcfg (.Instance edge), edgeLbCall lcfg (.NodeBalancer nb),
         edgeLbHttpsCall nb (.NodeBalancerConfig c1),
         edgeLbHttpCall nb (.NodeBalancerConfig c2),
         edgeBackendHttpsCall edge nb c1 (.NodeBalancerNode n1),
         edgeBackendHttpCall edge nb c2 (.NodeBalancerNode n2)]) := by
  unfold linodeCalls
  rcases ProvisionLinodeEdge_cases P ctx lcfg with
    ⟨e, h⟩ | ⟨edge, e, h⟩ | ⟨edge, nb, e, h⟩ | ⟨edge, nb, c1, e, h⟩ |
    ⟨edge, nb, c1, c2, e, h⟩ | ⟨edge, nb, c1, c2, n1, e, h⟩ |
    ⟨edge, nb, c1, c2, n1, n2, hedge, h⟩
  · exact Or.inl ⟨e, by rw [h], by rw [h]; simp⟩
  · exact Or.inr (Or.inl ⟨edge, e, by rw [h], by rw [h]; simp⟩)
  · exact Or.inr (Or.inr (Or.inl ⟨edge, nb, e, by rw [h], by rw [h]; simp⟩))
  · exact Or.inr (Or.inr (Or.inr (Or.inl ⟨edge, nb, c1, e, by rw [h], by rw [h]; simp⟩)))
  · exact Or.inr (Or.inr (Or.inr (Or.inr (Or.inl
      ⟨edge, nb, c1, c2, e, by rw [h], by rw [h]; simp⟩))))
  · exact Or.inr (Or.inr (Or.inr (Or.inr (Or.inr (Or.inl
      ⟨edge, nb, c1, c2, n1, e, by rw [h], by rw [h]; simp⟩)))))
  · exact Or.inr (Or.inr (Or.inr (Or.inr (Or.inr (Or.inr
      ⟨edge, nb, c1, c2, n1, n2, hedge, by rw [h], by rw [h]; simp⟩)))))

/-- The key a panic of `LoadLinodeConfig` names is a required key that is
unset. -/
theorem LoadLinodeConfig_error_key (ctx : Context) (key : String)
    (h : LoadLinodeConfig ctx = .error key) :
    (key = "sshPublicKey" ∨ key = "linodeRootPassword") ∧ ctx.config key = none := by
  cases hssh : ctx.config "sshPublicKey" with
  | none =>
    rw [LoadLinodeConfig_missing_ssh ctx hssh] at h
    cases h
    exact ⟨Or.inl rfl, hssh⟩
  | some ssh =>
    cases hpw : ctx.config "linodeRootPassword" with
    | none =>
      rw [LoadLinodeConfig_missing_pw ctx ssh hssh hpw] at h
      cases h
      exact ⟨Or.inr rfl, hpw⟩
    | some pw =>
      rw [LoadLinodeConfig_ok ctx ssh pw hssh hpw] at h
      cases h

/-- The section `Proxmox Stack Exports` makes no provider call and leaves the
configuration alone. -/
theorem proxmoxExports_calls (infraCfg : InfraConfig) (s : LoopState) :
    (proxmoxExports infraCfg s).calls = s.ctx.calls ∧
      (proxmoxExports infraCfg s).config = s.ctx.config := by
  simp [proxmoxExports, Context.Export]

/-- The calls of a loop that completes, from the start of a run. -/
theorem start_loop_ok_calls (D : Deps) (P : Provider) (config : Config)
    (infraCfg : InfraConfig)
    (hok : (provisionVMs D P infraCfg infraCfg.VMs ⟨Context.start config, [], none⟩).2 = none) :
    (provisionVMs D P infraCfg infraCfg.VMs ⟨Context.start config, [], none⟩).1.ctx.requests =
        infraCfg.VMs.map (vmRequest infraCfg) ∧
      ∀ c ∈ (provisionVMs D P infraCfg infraCfg.VMs
        ⟨Context.start config, [], none⟩).1.ctx.calls, c.succeeded = true := by
  obtain ⟨new, h1, h2, h3⟩ := provisionVMs_ok_calls D P infraCfg infraCfg.VMs _ hok
  have h1' : (provisionVMs D P infraCfg infraCfg.VMs
      ⟨Context.start config, [], none⟩).1.ctx.calls = new := by
    rw [h1]; simp [Context.start]
  unfold Context.requests
  rw [h1']
  exact ⟨h2, h3⟩

/-- Texts that differ at a position inside both stay different whatever is
put after them. -/
theorem diverge_append (a b s t : List Char) (h : diverge a b = true) : a ++ s ≠ b ++ t := by
  induction a generalizing b with
  | nil => simp [diverge] at h
  | cons x xs ih =>
    cases b with
    | nil => simp [diverge] at h
    | cons y ys =>
      simp only [diverge, Bool.or_eq_true, bne_iff_ne, ne_eq] at h
      intro heq
      simp only [List.cons_append, List.cons.injEq] at heq
      rcases h with h | h
      · exact h heq.1
      · exact ih ys h heq.2

/-- The texts of two distinct Linode resources differ at a position inside
both. -/
theorem linodeFailureTexts_diverge :
    ∀ p ∈ linodeFailureTexts, ∀ q ∈ linodeFailureTexts, p.1 ≠ q.1 →
      diverge p.2.data q.2.data = true := by
  decide

/-- A run whose last provider call failed returns the error of that call,
wrapped with the text of the resource. -/
theorem run_last_failed (D : Deps) (P : Provider) (config : Config) (q : Request)
    (e : GoError) (h : (run D P config).1.calls.getLast? = some ⟨q, .failed e⟩) :
    (q.isVM = true ∧
        (run D P config).2 =
          .returned (some (.wrapf ("creating VM " ++ q.name ++ ": ") e))) ∨
      (q.isVM = false ∧ ∃ t, (q.name, t) ∈ linodeFailureTexts ∧
        (run D P config).2 =
          .returned (some (.wrapf "provisioning linode edge: " (.wrapf t e)))) := by
  unfold run at h ⊢
  rcases main_cases D P (Context.start config) with
    ⟨e', hc, hm⟩ | ⟨c, err, hc, h2, hm⟩ | ⟨c, key, hc, h2, h3, hm⟩ |
    ⟨c, l, err, hc, h2, h3, h4, hm⟩ | ⟨c, l, hc, h2, h3, h4, hm⟩
  · rw [hm] at h
    simp [Context.start] at h
  · rw [hm] at h ⊢
    obtain ⟨front, d, back, e', new, _, herr, hcalls, _, _⟩ :=
      provisionVMs_error D P c c.VMs _ err h2
    rw [hcalls, List.getLast?_concat] at h
    injection h with h
    injection h with hq he
    injection he with he
    subst hq he herr
    exact Or.inl ⟨rfl, rfl⟩
  · rw [hm] at h
    rw [(proxmoxExports_calls c _).1] at h
    have := (start_loop_ok_calls D P config c h2).2 _ (List.mem_of_getLast?_eq_some h)
    simp [Call.succeeded] at this
  · rw [hm] at h ⊢
    rcases ProvisionLinodeEdge_cases P _ l with
      ⟨e', hp⟩ | ⟨_, e', hp⟩ | ⟨_, _, e', hp⟩ | ⟨_, _, _, e', hp⟩ | ⟨_, _, _, _, e', hp⟩ |
      ⟨_, _, _, _, _, e', hp⟩ | ⟨_, _, _, _, _, _, _, hp⟩
    all_goals rw [hp] at h h4 ⊢
    all_goals
      simp [edgeNodeCall, edgeLbCall, edgeLbHttpsCall, edgeLbHttpCall, edgeBackendHttpsCall,
        edgeBackendHttpCall] at h h4
    all_goals
      obtain ⟨hq, he⟩ := h
      subst hq he h4
      exact Or.inr ⟨rfl, _, by simp [Request.name, linodeFailureTexts], rfl⟩
  · rw [hm] at h
    rcases ProvisionLinodeEdge_cases P _ l with
      ⟨e', hp⟩ | ⟨_, e', hp⟩ | ⟨_, _, e', hp⟩ | ⟨_, _, _, e', hp⟩ | ⟨_, _, _, _, e', hp⟩ |
      ⟨_, _, _, _, _, e', hp⟩ | ⟨_, _, _, _, _, _, _, hp⟩
    all_goals rw [hp] at h h4
    all_goals
      simp [edgeNodeCall, edgeLbCall, edgeLbHttpsCall, edgeLbHttpCall, edgeBackendHttpsCall,
        edgeBackendHttpCall] at h h4

theorem GoError.mem_chain_self (e : GoError) : e ∈ e.chain := by
  cases e <;> simp [GoError.chain]

/-- The text of a failed VM creation differs from the text of any failed
Linode creation: the first character differs. -/
theorem vm_text_ne_linode_text (name s t : String) :
    "creating VM " ++ name ++ ": " ++ s ≠ "provisioning linode edge: " ++ t := by
  intro h
  have hd := congrArg String.data h
  simp only [String.data_append, List.append_assoc] at hd
  exact diverge_append _ _ _ _ (by decide) hd

/-- The texts of failed creations of two VMs of different names differ when
the provider error is the same. -/
theorem vm_text_ne_vm_text (n1 n2 s : String) (hne : n1 ≠ n2) :
    "creating VM " ++ n1 ++ ": " ++ s ≠ "creating VM " ++ n2 ++ ": " ++ s := by
  intro h
  have hd := congrArg String.data h
  simp only [String.data_append, List.append_assoc] at hd
  have h1 := List.append_cancel_left hd
  rw [← List.append_assoc, ← List.append_assoc n2.data] at h1
  have h2 := List.append_cancel_right h1
  exact hne (String.ext (List.append_cancel_right h2))

/-- The texts of failed creations of two Linode resources of different names
differ. -/
theorem linode_text_ne_linode_text (n1 t1 n2 t2 s1 s2 : String)
    (h1 : (n1, t1) ∈ linodeFailureTexts) (h2 : (n2, t2) ∈ linodeFailureTexts) (hne : n1 ≠ n2) :
    "provisioning linode edge: " ++ (t1 ++ s1) ≠ "provisioning linode edge: " ++ (t2 ++ s2) := by
  intro h
  have hd := congrArg String.data h
  simp only [String.data_append] at hd
  have hd' := List.append_cancel_left hd
  exact diverge_append _ _ _ _ (linodeFailureTexts_diverge _ h1 _ h2 hne) hd'

/-- The part of the text of a failed Linode creation that the program
writes (what stands before the provider error) holds neither the resource
name nor a phase word. -/
theorem linodeFailureTexts_program_part :
    ∀ p ∈ linodeFailureTexts,
      ¬ occursIn p.1 ("provisioning linode edge: " ++ p.2) ∧
        ∀ w ∈ phaseWords, ¬ occursIn w ("provisioning linode edge: " ++ p.2) := by
  decide

/-- The texts of failed creations of two VMs differ, whatever the provider
errors, unless the name of one followed by `: ` is an initial part of the
name of the other followed by `: `. -/
theorem vm_text_ne_of_no_initial_part (n1 n2 s1 s2 : String)
    (h12 : ¬ (n1 ++ ": ").data <+: (n2 ++ ": ").data)
    (h21 : ¬ (n2 ++ ": ").data <+: (n1 ++ ": ").data) :
    "creating VM " ++ n1 ++ ": " ++ s1 ≠ "creating VM " ++ n2 ++ ": " ++ s2 := by
  intro h
  have hd := congrArg String.data h
  simp only [String.data_append, List.append_assoc] at hd
  have h1 := List.append_cancel_left hd
  rw [← List.append_assoc, ← List.append_assoc n2.data] at h1
  simp only [String.data_append] at h12 h21
  rcases List.append_eq_append_iff.mp h1 with ⟨a, ha, _⟩ | ⟨a, ha, _⟩
  · exact h12 ⟨a, ha.symm⟩
  · exact h21 ⟨a, ha.symm⟩

/-- What a run whose VM loop completes exports as `vmIPs` and `vmCount`: the
map holds, for a name, the IP of the last definition of that name (the
assignment in the loop replaces the entry of a repeated name), so it holds
the IP of every definition when the names are pairwise distinct; its keys are
the names of the definitions; `vmCount` is the number of definitions. -/
theorem vmIPs_of_completed_loop (D : Deps) (P : Provider) (config : Config)
    (infraCfg : InfraConfig) (hcfg : D.LoadInfraConfig (Context.start config) = .ok infraCfg)
    (hloop : (provisionVMs D P infraCfg infraCfg.VMs ⟨Context.start config, [], none⟩).2 =
      none) :
    ∃ m : StringMap, (run D P config).1.exported "vmIPs" = some (.StringMap m) ∧
      (∀ (front : List VMDefinition) (d : VMDefinition) (back : List VMDefinition),
        infraCfg.VMs = front ++ d :: back → (∀ v ∈ back, v.Name ≠ d.Name) →
          m.get d.Name = some d.IP) ∧
      (infraCfg.VMs.Pairwise (fun a b => a.Name ≠ b.Name) →
        ∀ d ∈ infraCfg.VMs, m.get d.Name = some d.IP) ∧
      (∀ k : String, k ∈ m.keys ↔ ∃ v ∈ infraCfg.VMs, v.Name = k) ∧
      (run D P config).1.exported "vmCount" = some (.Int infraCfg.VMs.length) := by
  obtain ⟨rest, hex, hrest⟩ := run_exports_of_loop_ok D P config infraCfg hcfg hloop
  obtain ⟨h1, _, _, h4⟩ := exported_of_exports _ _ _ _ _ rest hex hrest
  have hlast : ∀ (front : List VMDefinition) (d : VMDefinition) (back : List VMDefinition),
      infraCfg.VMs = front ++ d :: back → (∀ v ∈ back, v.Name ≠ d.Name) →
        (provisionVMs D P infraCfg infraCfg.VMs ⟨Context.start config, [], none⟩).1.vmIPs.get
          d.Name = some d.IP := by
    intro front d back hsplit hback
    have hloop' := hloop
    rw [hsplit] at hloop'
    have := provisionVMs_ok_get_last D P infraCfg front d back _ hloop' hback
    rw [← hsplit] at this
    exact this
  refine ⟨_, h1, hlast, ?_, ?_, h4⟩
  · intro hpw d hd
    obtain ⟨front, back, hsplit⟩ := List.append_of_mem hd
    refine hlast front d back hsplit ?_
    rw [hsplit, List.pairwise_append] at hpw
    intro v hv
    exact fun h => (List.pairwise_cons.mp hpw.2.1).1 v hv h.symm
  · intro k
    rw [provisionVMs_ok_keys D P infraCfg infraCfg.VMs _ k hloop]
    simp [StringMap.keys]

/-! ## The claims -/

/-- C1: in the VM loop of `main`, when the provider creates the definitions
`0..k-1` and fails the creation of definition `k` with the error `e`, the run
returns the error `creating VM <name of k>: e`, which holds the name of the
failing VM and wraps `e`; exactly `k` calls succeeded, exactly one call
failed (the one for definition `k`), `k + 1` calls were made in all, for the
definitions `0..k` in order, so no definition after `k` was attempted. -/
theorem C1_vm_loop_fail_fast (D : Deps) (P : Provider) (config : Config)
    (infraCfg : InfraConfig) (k : Nat) (d : VMDefinition) (e : GoError)
    (hcfg : D.LoadInfraConfig (Context.start config) = .ok infraCfg)
    (hk : infraCfg.VMs[k]? = some d)
    (hok : ∀ (i : Nat) (v : VMDefinition), i < k → infraCfg.VMs[i]? = some v →
      ∃ node, P.NewVirtualMachine ((infraCfg.VMs.take i).map (vmRequest infraCfg))
        v.Name (vmArgs infraCfg v) = .ok node)
    (hfail : P.NewVirtualMachine ((infraCfg.VMs.take k).map (vmRequest infraCfg))
        d.Name (vmArgs infraCfg d) = .error e) :
    (run D P config).2 = .returned (some (.wrapf ("creating VM " ++ d.Name ++ ": ") e)) ∧
      occursIn d.Name (GoError.wrapf ("creating VM " ++ d.Name ++ ": ") e).Error ∧
      (GoError.wrapf ("creating VM " ++ d.Name ++ ": ") e).Unwrap = some e ∧
      ((run D P config).1.calls.filter Call.succeeded).length = k ∧
      (run D P config).1.calls.filter (fun c => !c.succeeded) =
        [⟨vmRequest infraCfg d, .failed e⟩] ∧
      (run D P config).1.calls.length = k + 1 ∧
      (run D P config).1.requests = (infraCfg.VMs.take (k + 1)).map (vmRequest infraCfg) := by
  have hsplit := split_at_index infraCfg.VMs k d hk
  have hklt : k < infraCfg.VMs.length := (List.getElem?_eq_some.mp hk).1
  have hlen : (infraCfg.VMs.take k).length = k := by
    rw [List.length_take]; omega
  have key := provisionVMs_fail_at D P infraCfg (infraCfg.VMs.take k) d
    (infraCfg.VMs.drop (k + 1)) e ⟨Context.start config, [], none⟩
    (by
      intro i v hv
      have hi : i < k := by
        have := (List.getElem?_eq_some.mp hv).1
        omega
      rw [List.getElem?_take_of_lt hi] at hv
      obtain ⟨node, hnode⟩ := hok i v hi hv
      refine ⟨node, ?_⟩
      rw [List.take_take, Nat.min_eq_left (Nat.le_of_lt hi)]
      simpa [start_requests] using hnode)
    (by simpa [start_requests] using hfail)
  rw [← hsplit] at key
  obtain ⟨herr, new, hcalls, hreq, hsucc⟩ := key
  have hrun := run_of_loop_error D P config infraCfg _ hcfg herr
  have hnewlen : new.length = k := by
    have := congrArg List.length hreq
    rw [List.length_map, List.length_map, hlen] at this
    exact this
  have hc : (run D P config).1.calls = new ++ [⟨vmRequest infraCfg d, .failed e⟩] := by
    rw [hrun]
    simpa [Context.start] using hcalls
  have hf1 : new.filter Call.succeeded = new := List.filter_eq_self.mpr hsucc
  have hf2 : new.filter (fun c => !c.succeeded) = [] := by
    rw [List.filter_eq_nil_iff]
    intro c hc'
    simp [hsucc c hc']
  refine ⟨by rw [hrun], vm_name_occursIn d.Name e, rfl, ?_, ?_, ?_, ?_⟩
  · rw [hc, List.filter_append, hf1]
    simp [Call.succeeded, hnewlen]
  · rw [hc, List.filter_append, hf2]
    simp [Call.succeeded]
  · rw [hc]; simp [hnewlen]
  · unfold Context.requests
    rw [hc, List.map_append, hreq]
    conv_rhs => rw [hsplit]
    rw [List.take_append_eq_append_take]
    simp [hlen]

/-- C1 at three definitions with the provider failing the second: one
success, one failure naming `k3s-agent-1`, one definition not attempted. -/
theorem C1_vm_loop_fail_fast_witness :
    (run (exampleDeps threeVMs) (exampleProvider ["k3s-agent-1"]) fullConfig).2 =
        .returned (some (.wrapf "creating VM k3s-agent-1: " (.base "boom"))) ∧
      ((run (exampleDeps threeVMs) (exampleProvider ["k3s-agent-1"]) fullConfig).1.calls.filter
        Call.succeeded).length = 1 ∧
      ((run (exampleDeps threeVMs) (exampleProvider ["k3s-agent-1"]) fullConfig).1.calls.filter
        (fun c => !c.succeeded)).length = 1 ∧
      threeVMs.length -
        (run (exampleDeps threeVMs) (exampleProvider ["k3s-agent-1"]) fullConfig).1.calls.length
          = 1 := by
  have h := C1_vm_loop_fail_fast (exampleDeps threeVMs) (exampleProvider ["k3s-agent-1"])
    fullConfig (exampleInfra threeVMs) 1 (exampleVM "k3s-agent-1" "agent" "192.168.1.101")
    (.base "boom") rfl rfl
    (by
      intro i v hi hv
      have h0 : i = 0 := by omega
      subst h0
      have hv' : v = exampleVM "k3s-server-1" "server" "192.168.1.100" := by
        simpa [threeVMs, exampleInfra] using hv.symm
      subst hv'
      exact ⟨_, rfl⟩)
    rfl
  obtain ⟨h1, _, _, h2, h3, h4, _⟩ := h
  refine ⟨h1, h2, ?_, ?_⟩
  · rw [h3]; rfl
  · rw [h4]; rfl

/-- C5: when both required keys are set, `LoadLinodeConfig` returns a
`LinodeConfig` and a nil error; `Region`, `Label` and `HomeIngressIP` are the
values of `linodeRegion`, `linodeLabel` and `homeIngressIP`, or `us-ord`,
`homelab-edge` and `192.168.1.200` when the key is unset or empty; the other
four fields are the values of their keys unchanged (the empty string for an
unset optional key). -/
theorem C5_LoadLinodeConfig_defaults (ctx : Context) (ssh pw : String)
    (hssh : ctx.config "sshPublicKey" = some ssh)
    (hpw : ctx.config "linodeRootPassword" = some pw) :
    ∃ l : LinodeConfig, LoadLinodeConfig ctx = .ok (l, none) ∧
      (l.Region = match ctx.config "linodeRegion" with
        | none => "us-ord"
        | some v => if v = "" then "us-ord" else v) ∧
      (l.Label = match ctx.config "linodeLabel" with
        | none => "homelab-edge"
        | some v => if v = "" then "homelab-edge" else v) ∧
      (l.HomeIngressIP = match ctx.config "homeIngressIP" with
        | none => "192.168.1.200"
        | some v => if v = "" then "192.168.1.200" else v) ∧
      l.SSHPublicKey = ssh ∧
      l.RootPassword = pw ∧
      (l.HomeEndpoint = match ctx.config "homeEndpoint" with
        | none => ""
        | some v => v) ∧
      (l.HomeWgPublicKey = match ctx.config "homeWgPublicKey" with
        | none => ""
        | some v => v) := by
  refine ⟨_, LoadLinodeConfig_ok ctx ssh pw hssh hpw, ?_, ?_, ?_, rfl, rfl, ?_, ?_⟩
  · cases h : ctx.config "linodeRegion" <;> simp [Config.Get, h]
  · cases h : ctx.config "linodeLabel" <;> simp [Config.Get, h]
  · cases h : ctx.config "homeIngressIP" <;> simp [Config.Get, h]
  · cases h : ctx.config "homeEndpoint" <;> simp [Config.Get, h]
  · cases h : ctx.config "homeWgPublicKey" <;> simp [Config.Get, h]

/-- C5 at a stack configuration that sets the two required keys only: the
three defaults are taken. -/
theorem C5_LoadLinodeConfig_defaults_witness :
    fullConfig "sshPublicKey" = some "ssh-ed25519 AAAA" ∧
      fullConfig "linodeRootPassword" = some "hunter2" ∧
      ∃ l : LinodeConfig, LoadLinodeConfig (Context.start fullConfig) = .ok (l, none) ∧
        l.Region = "us-ord" ∧ l.Label = "homelab-edge" ∧ l.HomeIngressIP = "192.168.1.200" ∧
        l.SSHPublicKey = "ssh-ed25519 AAAA" ∧ l.RootPassword = "hunter2" ∧
        l.HomeEndpoint = "" ∧ l.HomeWgPublicKey = "" := by
  obtain ⟨l, h, h1, h2, h3, h4, h5, h6, h7⟩ :=
    C5_LoadLinodeConfig_defaults (Context.start fullConfig) "ssh-ed25519 AAAA" "hunter2"
      rfl rfl
  exact ⟨rfl, rfl, l, h, h1, h2, h3, h4, h5, h6, h7⟩

/-- C6: `LoadLinodeConfig` fails (it panics, and returns no `LinodeConfig`)
exactly when `sshPublicKey` or `linodeRootPassword` is unset; the panic names
an unset required key; and when it returns, the error is nil and
`SSHPublicKey` and `RootPassword` are the values the two keys are set to. -/
theorem C6_LoadLinodeConfig_fails_iff_missing (ctx : Context) :
    ((∃ key, LoadLinodeConfig ctx = .error key) ↔
        (ctx.config "sshPublicKey" = none ∨ ctx.config "linodeRootPassword" = none)) ∧
      (∀ key, LoadLinodeConfig ctx = .error key →
        (key = "sshPublicKey" ∨ key = "linodeRootPassword") ∧ ctx.config key = none) ∧
      (∀ l e, LoadLinodeConfig ctx = .ok (l, e) →
        e = none ∧ ctx.config "sshPublicKey" = some l.SSHPublicKey ∧
          ctx.config "linodeRootPassword" = some l.RootPassword) := by
  cases hssh : ctx.config "sshPublicKey" with
  | none =>
    rw [LoadLinodeConfig_missing_ssh ctx hssh]
    refine ⟨⟨fun _ => Or.inl rfl, fun _ => ⟨_, rfl⟩⟩, ?_, ?_⟩
    · intro key hkey
      cases hkey
      exact ⟨Or.inl rfl, hssh⟩
    · intro l e h
      cases h
  | some ssh =>
    cases hpw : ctx.config "linodeRootPassword" with
    | none =>
      rw [LoadLinodeConfig_missing_pw ctx ssh hssh hpw]
      refine ⟨⟨fun _ => Or.inr rfl, fun _ => ⟨_, rfl⟩⟩, ?_, ?_⟩
      · intro key hkey
        cases hkey
        exact ⟨Or.inr rfl, hpw⟩
      · intro l e h
        cases h
    | some pw =>
      rw [LoadLinodeConfig_ok ctx ssh pw hssh hpw]
      refine ⟨⟨?_, ?_⟩, ?_, ?_⟩
      · rintro ⟨key, h⟩
        cases h
      · rintro (h | h) <;> cases h
      · intro key h
        cases h
      · intro l e h
        injection h with h
        obtain ⟨h1, h2⟩ := Prod.mk.inj h
        subst h1 h2
        exact ⟨rfl, rfl, rfl⟩

/-- C9: the code at two definitions of the same name, `k3s-node` with the
IPs 192.168.1.100 and 192.168.1.101, and a provider that creates both.  The
VM loop completes and `vmCount` is exported as 2, but the exported `vmIPs`
has the single entry of the second definition: the mapping of the first
definition, `k3s-node` to 192.168.1.100, is not collected.  The claim, and
the comment in `main.go` that `vmIPs` collects the name-to-IP mapping of
every VM, ask for the mapping of each definition. -/
theorem C9_vmIPs_duplicate_name :
    (provisionVMs (exampleDeps sameNameVMs) (exampleProvider []) (exampleInfra sameNameVMs)
        (exampleInfra sameNameVMs).VMs ⟨Context.start fullConfig, [], none⟩).2 = none ∧
      (exampleInfra sameNameVMs).VMs =
        [exampleVM "k3s-node" "server" "192.168.1.100",
         exampleVM "k3s-node" "agent" "192.168.1.101"] ∧
      (run (exampleDeps sameNameVMs) (exampleProvider []) fullConfig).1.exported "vmIPs" =
        some (.StringMap [("k3s-node", "192.168.1.101")]) ∧
      (run (exampleDeps sameNameVMs) (exampleProvider []) fullConfig).1.exported "vmCount" =
        some (.Int 2) ∧
      StringMap.get [("k3s-node", "192.168.1.101")]
        (exampleVM "k3s-node" "server" "192.168.1.100").Name ≠
          some (exampleVM "k3s-node" "server" "192.168.1.100").IP ∧
      (StringMap.keys [("k3s-node", "192.168.1.101")]).length = 1 := by
  decide

/-- C10: when the VM loop of `main` completes without error, the exported
`controlPlaneIP` is the IP of the last definition whose `Role` is `server`
(whatever the definitions before it, servers or not, and whatever the
non-server definitions after it), and it is the zero value when no
definition has the `Role` `server`. -/
theorem C10_controlPlaneIP_last_server (D : Deps) (P : Provider) (config : Config)
    (infraCfg : InfraConfig) (hcfg : D.LoadInfraConfig (Context.start config) = .ok infraCfg)
    (hloop : (provisionVMs D P infraCfg infraCfg.VMs ⟨Context.start config, [], none⟩).2 =
      none) :
    (∀ (front : List VMDefinition) (d : VMDefinition) (back : List VMDefinition),
        infraCfg.VMs = front ++ d :: back → d.Role = "server" →
        (∀ v ∈ back, v.Role ≠ "server") →
          (run D P config).1.exported "controlPlaneIP" = some (.StringOutput (some d.IP))) ∧
      ((∀ v ∈ infraCfg.VMs, v.Role ≠ "server") →
        (run D P config).1.exported "controlPlaneIP" = some (.StringOutput none)) := by
  obtain ⟨rest, hex, hrest⟩ := run_exports_of_loop_ok D P config infraCfg hcfg hloop
  obtain ⟨_, h2, _, _⟩ := exported_of_exports _ _ _ _ _ rest hex hrest
  rw [h2]
  constructor
  · intro front d back hsplit hd hback
    have hloop' := hloop
    rw [hsplit] at hloop'
    have := provisionVMs_ok_cp_last D P infraCfg front d back _ hloop' hd hback
    rw [← hsplit] at this
    rw [this]
  · intro hnone
    rw [provisionVMs_ok_cp_other D P infraCfg infraCfg.VMs _ hloop hnone]

/-- C10 at three definitions, the first a server and the others agents: the
exported `controlPlaneIP` is the IP of the first. -/
theorem C10_controlPlaneIP_last_server_witness :
    (run (exampleDeps threeVMs) (exampleProvider []) fullConfig).1.exported "controlPlaneIP" =
      some (.StringOutput (some "192.168.1.100")) :=
  (C10_controlPlaneIP_last_server (exampleDeps threeVMs) (exampleProvider []) fullConfig
    (exampleInfra threeVMs) rfl (by decide)).1 []
    (exampleVM "k3s-server-1" "server" "192.168.1.100")
    [exampleVM "k3s-agent-1" "agent" "192.168.1.101",
     exampleVM "k3s-agent-2" "agent" "192.168.1.102"] rfl rfl (by decide)

/-- C2: in the calls `ProvisionLinodeEdge` makes, whatever the provider
answers, the call at every position refers only to resources created
successfully by calls before it (a config to the NodeBalancer whose ID it
carries; a backend node to the NodeBalancer and the config whose IDs it
carries and to the instance whose private IP is in its address), every call
before it succeeded, and the resource names of the calls are an initial part
of edge-node, edge-lb, edge-lb-https, edge-lb-http, edge-backend-https,
edge-backend-http. -/
theorem C2_linode_dependency_order (P : Provider) (ctx : Context) (lcfg : LinodeConfig)
    (i : Nat) (c : Call) (hc : (linodeCalls P ctx lcfg)[i]? = some c) :
    c.referencesCreated ((linodeCalls P ctx lcfg).take i) = true ∧
      (∀ c' ∈ (linodeCalls P ctx lcfg).take i, c'.succeeded = true) ∧
      (linodeCalls P ctx lcfg).map (fun c => c.req.name) <+:
        ["edge-node", "edge-lb", "edge-lb-https", "edge-lb-http", "edge-backend-https",
         "edge-backend-http"] := by
  rcases linodeCalls_cases P ctx lcfg with
    ⟨e, _, h⟩ | ⟨edge, e, _, h⟩ | ⟨edge, nb, e, _, h⟩ | ⟨edge, nb, c1, e, _, h⟩ |
    ⟨edge, nb, c1, c2, e, _, h⟩ | ⟨edge, nb, c1, c2, n1, e, _, h⟩ |
    ⟨edge, nb, c1, c2, n1, n2, _, _, h⟩
  all_goals
    rw [h] at hc ⊢
    refine ⟨?_, ?_, ?_⟩
    · rcases i with _ | _ | _ | _ | _ | _ | i <;> simp at hc <;> subst hc <;>
        simp [Call.referencesCreated, createdNodeBalancer, createdNodeBalancerConfig,
          createdInstanceAt, edgeNodeCall, edgeLbCall, edgeLbHttpsCall, edgeLbHttpCall,
          edgeBackendHttpsCall, edgeBackendHttpCall, edgeLbHttpsArgs, edgeLbHttpArgs,
          edgeBackendHttpsArgs, edgeBackendHttpArgs]
    · rcases i with _ | _ | _ | _ | _ | _ | i <;> simp at hc <;>
        simp [Call.succeeded, edgeNodeCall, edgeLbCall, edgeLbHttpsCall, edgeLbHttpCall,
          edgeBackendHttpsCall, edgeBackendHttpCall]
    · simp [Request.name, edgeNodeCall, edgeLbCall, edgeLbHttpsCall, edgeLbHttpCall,
        edgeBackendHttpsCall, edgeBackendHttpCall]

/-- C2 at the last call of a run in which the provider creates everything:
the backend node `edge-backend-http` is the sixth call, and the NodeBalancer,
the config and the instance it refers to were created before it. -/
theorem C2_linode_dependency_order_witness :
    ((linodeCalls (exampleProvider []) (Context.start fullConfig) exampleLinode)[5]?).map
        (fun c => c.req.name) = some "edge-backend-http" ∧
      (edgeBackendHttpCall ⟨"203.0.113.10", "192.168.128.10"⟩
          ⟨"nb-1", "nb-1.example.net", "203.0.113.20"⟩ ⟨"cfg-edge-lb-http"⟩
          (.NodeBalancerNode ⟨"node-edge-backend-http"⟩)).referencesCreated
        ((linodeCalls (exampleProvider []) (Context.start fullConfig) exampleLinode).take 5) =
          true :=
  ⟨by decide,
    (C2_linode_dependency_order (exampleProvider []) (Context.start fullConfig) exampleLinode 5
      (edgeBackendHttpCall ⟨"203.0.113.10", "192.168.128.10"⟩
        ⟨"nb-1", "nb-1.example.net", "203.0.113.20"⟩ ⟨"cfg-edge-lb-http"⟩
        (.NodeBalancerNode ⟨"node-edge-backend-http"⟩)) (by decide)).1⟩

/-- C8: when `ProvisionLinodeEdge` returns nil, its calls are exactly six,
all successful: the instance (whose private IP the provider assigned), the
one NodeBalancer, two configs of that NodeBalancer, TCP on port 443 and TCP
on port 80, the backend node `edge-backend-https` of the port-443 config with
the address private IP `:443`, and the backend node `edge-backend-http` of the
port-80 config with the address private IP `:80`. -/
theorem C8_linode_port_mapping (P : Provider) (ctx : Context) (lcfg : LinodeConfig)
    (hok : (ProvisionLinodeEdge P ctx lcfg).2 = none) :
    ∃ (edge : Instance) (nb : NodeBalancer) (c443 c80 : NodeBalancerConfig)
      (n443 n80 : NodeBalancerNode),
      P.NewInstance ctx.requests "edge-node" (edgeNodeArgs lcfg) = .ok edge ∧
      linodeCalls P ctx lcfg =
        [⟨.NewInstance "edge-node" (edgeNodeArgs lcfg), .Instance edge⟩,
         ⟨.NewNodeBalancer "edge-lb" (edgeLbArgs lcfg), .NodeBalancer nb⟩,
         ⟨.NewNodeBalancerConfig "edge-lb-https"
            { NodebalancerId := nb.ID, Port := 443, Protocol := "tcp"
              Algorithm := "roundrobin", Check := "connection", CheckInterval := 30
              CheckTimeout := 10, CheckAttempts := 3, Stickiness := "table" },
          .NodeBalancerConfig c443⟩,
         ⟨.NewNodeBalancerConfig "edge-lb-http"
            { NodebalancerId := nb.ID, Port := 80, Protocol := "tcp"
              Algorithm := "roundrobin", Check := "connection", CheckInterval := 30
              CheckTimeout := 10, CheckAttempts := 3, Stickiness := "table" },
          .NodeBalancerConfig c80⟩,
         ⟨.NewNodeBalancerNode "edge-backend-https"
            { NodebalancerId := nb.ID, ConfigId := c443.ID, Label := "edge-https"
              Address := edge.PrivateIpAddress ++ ":443", Weight := 100 },
          .NodeBalancerNode n443⟩,
         ⟨.NewNodeBalancerNode "edge-backend-http"
            { NodebalancerId := nb.ID, ConfigId := c80.ID, Label := "edge-http"
              Address := edge.PrivateIpAddress ++ ":80", Weight := 100 },
          .NodeBalancerNode n80⟩] := by
  rcases linodeCalls_cases P ctx lcfg with
    ⟨e, h, _⟩ | ⟨edge, e, h, _⟩ | ⟨edge, nb, e, h, _⟩ | ⟨edge, nb, c1, e, h, _⟩ |
    ⟨edge, nb, c1, c2, e, h, _⟩ | ⟨edge, nb, c1, c2, n1, e, h, _⟩ |
    ⟨edge, nb, c1, c2, n1, n2, hedge, _, h⟩
  · rw [hok] at h; cases h
  · rw [hok] at h; cases h
  · rw [hok] at h; cases h
  · rw [hok] at h; cases h
  · rw [hok] at h; cases h
  · rw [hok] at h; cases h
  · exact ⟨edge, nb, c1, c2, n1, n2, hedge, h⟩

/-- C8 at a provider that creates everything and assigns the private IP
192.168.128.10: the two backend addresses are that IP with `:443` and
`:80`. -/
theorem C8_linode_port_mapping_witness :
    (ProvisionLinodeEdge (exampleProvider []) (Context.start fullConfig) exampleLinode).2 =
        none ∧
      (linodeCalls (exampleProvider []) (Context.start fullConfig) exampleLinode).length = 6 ∧
      (linodeCalls (exampleProvider []) (Context.start fullConfig) exampleLinode).filterMap
        (fun c => match c.req with
          | .NewNodeBalancerNode name args => some (name, args.ConfigId, args.Address)
          | _ => none) =
        [("edge-backend-https", "cfg-edge-lb-https", "192.168.128.10:443"),
         ("edge-backend-http", "cfg-edge-lb-http", "192.168.128.10:80")] := by
  obtain ⟨edge, nb, c443, c80, n443, n80, hedge, h⟩ :=
    C8_linode_port_mapping (exampleProvider []) (Context.start fullConfig) exampleLinode
      (by decide)
  refine ⟨by decide, ?_, by decide⟩
  rw [h]
  rfl

/-- C3, as stated, fails: with three VM definitions, a provider that creates
everything and a stack configuration without `sshPublicKey`, the run ends in
the failure of `LoadLinodeConfig` on the missing key after three VM creation
calls were made. -/
theorem C3_config_error_counterexample :
    emptyConfig "sshPublicKey" = none ∧
      (run (exampleDeps threeVMs) (exampleProvider []) emptyConfig).2 =
        .panicked "sshPublicKey" ∧
      ((run (exampleDeps threeVMs) (exampleProvider []) emptyConfig).1.calls.map
        (fun c => (c.req.name, c.succeeded))) =
        [("k3s-server-1", true), ("k3s-agent-1", true), ("k3s-agent-2", true)] := by
  decide

/-- C3, amended: a run in which `LoadInfraConfig` returns an error returns
that error wrapped, with no provider call made and no export written; a run
that ends in the failure of `LoadLinodeConfig` ends on a required key
(`sshPublicKey` or `linodeRootPassword`) that is unset, after the creation
calls of all the VM definitions, each successful, and before any Linode
creation call. -/
theorem C3_config_error_calls (D : Deps) (P : Provider) (config : Config) :
    (∀ e, D.LoadInfraConfig (Context.start config) = .error e →
        (run D P config).2 =
          .returned (some (.wrapf "loading infrastructure config: " e)) ∧
        (run D P config).1.calls = [] ∧ (run D P config).1.exports = []) ∧
      (∀ key, (run D P config).2 = .panicked key →
        (key = "sshPublicKey" ∨ key = "linodeRootPassword") ∧ config key = none ∧
        ∃ infraCfg, D.LoadInfraConfig (Context.start config) = .ok infraCfg ∧
          (run D P config).1.requests = infraCfg.VMs.map (vmRequest infraCfg) ∧
          ∀ c ∈ (run D P config).1.calls, c.succeeded = true) := by
  unfold run
  rcases main_cases D P (Context.start config) with
    ⟨e, h, hm⟩ | ⟨c, err, h, h2, hm⟩ | ⟨c, key, h, h2, h3, hm⟩ |
    ⟨c, l, err, h, h2, h3, h4, hm⟩ | ⟨c, l, h, h2, h3, h4, hm⟩
  · refine ⟨?_, ?_⟩
    · intro e' he'
      rw [h] at he'; cases he'
      rw [hm]
      exact ⟨rfl, rfl, rfl⟩
    · intro key hkey
      rw [hm] at hkey; cases hkey
  · refine ⟨?_, ?_⟩
    · intro e' he'
      rw [h] at he'; cases he'
    · intro key hkey
      rw [hm] at hkey; cases hkey
  · refine ⟨?_, ?_⟩
    · intro e' he'
      rw [h] at he'; cases he'
    · intro key' hkey
      rw [hm] at hkey; cases hkey
      obtain ⟨hk1, hk2⟩ := LoadLinodeConfig_error_key _ _ h3
      rw [(proxmoxExports_calls c _).2, (provisionVMs_exports D P c c.VMs _).2] at hk2
      obtain ⟨hr, hs⟩ := start_loop_ok_calls D P config c h2
      refine ⟨hk1, hk2, c, h, ?_, ?_⟩
      · rw [hm]
        unfold Context.requests at hr ⊢
        rw [(proxmoxExports_calls c _).1]
        exact hr
      · rw [hm, (proxmoxExports_calls c _).1]
        exact hs
  · refine ⟨?_, ?_⟩
    · intro e' he'
      rw [h] at he'; cases he'
    · intro key hkey
      rw [hm] at hkey; cases hkey
  · refine ⟨?_, ?_⟩
    · intro e' he'
      rw [h] at he'; cases he'
    · intro key hkey
      rw [hm] at hkey; cases hkey

/-- C4, as stated, fails: with three VM definitions and a provider that fails
the creation of `edge-node`, the run returns an error and the four Proxmox
export keys have been written. -/
theorem C4_exports_counterexample :
    (run (exampleDeps threeVMs) (exampleProvider ["edge-node"]) fullConfig).2 =
        .returned (some (.wrapf "provisioning linode edge: "
          (.wrapf "creating edge node: " (.base "boom")))) ∧
      (run (exampleDeps threeVMs) (exampleProvider ["edge-node"]) fullConfig).1.exportKeys =
        ["vmIPs", "controlPlaneIP", "nodeName", "vmCount"] := by
  decide

/-- C4, amended: a run in which `LoadInfraConfig` returns an error, or in
which the VM loop returns an error, has written no export key.  A run whose
VM loop completes has written the four Proxmox keys: exactly those four when
it does not return nil (the Linode configuration or a Linode creation
failed), and all nine keys when it returns nil.  So the keys written are
none, the four, or all nine; all nine exactly when the run returns nil (the
five Linode keys are written only by a run that returns nil); and a key is
written only after `LoadInfraConfig` succeeded and the VM loop completed. -/
theorem C4_exports_written (D : Deps) (P : Provider) (config : Config) :
    ((run D P config).1.exportKeys = [] ∨
        (run D P config).1.exportKeys = ["vmIPs", "controlPlaneIP", "nodeName", "vmCount"] ∨
        (run D P config).1.exportKeys =
          ["vmIPs", "controlPlaneIP", "nodeName", "vmCount", "edgeNodeIP",
           "edgeNodePrivateIP", "nodeBalancerHostname", "nodeBalancerIPv4",
           "edgeNodeRegion"]) ∧
      ((run D P config).2 = .returned none ↔
        (run D P config).1.exportKeys =
          ["vmIPs", "controlPlaneIP", "nodeName", "vmCount", "edgeNodeIP",
           "edgeNodePrivateIP", "nodeBalancerHostname", "nodeBalancerIPv4",
           "edgeNodeRegion"]) ∧
      ((run D P config).1.exportKeys ≠ [] →
        ∃ infraCfg, D.LoadInfraConfig (Context.start config) = .ok infraCfg ∧
          (provisionVMs D P infraCfg infraCfg.VMs ⟨Context.start config, [], none⟩).2 =
            none) ∧
      (∀ e, D.LoadInfraConfig (Context.start config) = .error e →
        (run D P config).1.exportKeys = []) ∧
      (∀ infraCfg err, D.LoadInfraConfig (Context.start config) = .ok infraCfg →
        (provisionVMs D P infraCfg infraCfg.VMs ⟨Context.start config, [], none⟩).2 =
          some err →
        (run D P config).1.exportKeys = []) ∧
      (∀ infraCfg, D.LoadInfraConfig (Context.start config) = .ok infraCfg →
        (provisionVMs D P infraCfg infraCfg.VMs ⟨Context.start config, [], none⟩).2 = none →
        ((run D P config).2 ≠ .returned none ∧
            (run D P config).1.exportKeys =
              ["vmIPs", "controlPlaneIP", "nodeName", "vmCount"]) ∨
          ((run D P config).2 = .returned none ∧
            (run D P config).1.exportKeys =
              ["vmIPs", "controlPlaneIP", "nodeName", "vmCount", "edgeNodeIP",
               "edgeNodePrivateIP", "nodeBalancerHostname", "nodeBalancerIPv4",
               "edgeNodeRegion"])) := by
  unfold run
  rcases main_cases D P (Context.start config) with
    ⟨e, h, hm⟩ | ⟨c, err, h, h2, hm⟩ | ⟨c, key, h, h2, h3, hm⟩ |
    ⟨c, l, err, h, h2, h3, h4, hm⟩ | ⟨c, l, h, h2, h3, h4, hm⟩
  · have hkeys : (main D P (Context.start config)).1.exportKeys = [] := by
      rw [hm]; rfl
    have hres : (main D P (Context.start config)).2 ≠ .returned none := by
      rw [hm]; simp
    refine ⟨Or.inl hkeys, ⟨fun hr => absurd hr hres, fun hk => ?_⟩,
      fun hk => absurd hkeys hk, fun _ _ => hkeys, fun _ _ _ _ => hkeys, ?_⟩
    · rw [hkeys] at hk; cases hk
    · intro infraCfg hc
      rw [h] at hc; cases hc
  · have hkeys : (main D P (Context.start config)).1.exportKeys = [] := by
      rw [hm]
      unfold Context.exportKeys
      rw [(provisionVMs_exports D P c c.VMs ⟨Context.start config, [], none⟩).1]
      rfl
    have hres : (main D P (Context.start config)).2 ≠ .returned none := by
      rw [hm]; simp
    refine ⟨Or.inl hkeys, ⟨fun hr => absurd hr hres, fun hk => ?_⟩,
      fun hk => absurd hkeys hk, fun _ _ => hkeys, fun _ _ _ _ => hkeys, ?_⟩
    · rw [hkeys] at hk; cases hk
    · intro infraCfg hc hl
      rw [h] at hc; cases hc
      rw [h2] at hl; cases hl
  · have hkeys : (main D P (Context.start config)).1.exportKeys =
        ["vmIPs", "controlPlaneIP", "nodeName", "vmCount"] := by
      rw [hm]
      unfold Context.exportKeys
      rw [proxmoxExports_exports]
      rfl
    have hres : (main D P (Context.start config)).2 ≠ .returned none := by
      rw [hm]; simp
    refine ⟨Or.inr (Or.inl hkeys), ⟨fun hr => absurd hr hres, fun hk => ?_⟩,
      fun _ => ⟨c, h, h2⟩, ?_, ?_, fun _ _ _ => Or.inl ⟨hres, hkeys⟩⟩
    · rw [hkeys] at hk; simp at hk
    · intro e he
      rw [h] at he; cases he
    · intro infraCfg err' hc hl
      rw [h] at hc; cases hc
      rw [h2] at hl; cases hl
  · have hkeys : (main D P (Context.start config)).1.exportKeys =
        ["vmIPs", "controlPlaneIP", "nodeName", "vmCount"] := by
      rw [hm]
      unfold Context.exportKeys
      rcases ProvisionLinodeEdge_exports P _ l with ⟨_, hx⟩ | ⟨hn, _⟩
      · rw [hx, proxmoxExports_exports]
        rfl
      · rw [hn] at h4; cases h4
    have hres : (main D P (Context.start config)).2 ≠ .returned none := by
      rw [hm]; simp
    refine ⟨Or.inr (Or.inl hkeys), ⟨fun hr => absurd hr hres, fun hk => ?_⟩,
      fun _ => ⟨c, h, h2⟩, ?_, ?_, fun _ _ _ => Or.inl ⟨hres, hkeys⟩⟩
    · rw [hkeys] at hk; simp at hk
    · intro e he
      rw [h] at he; cases he
    · intro infraCfg err' hc hl
      rw [h] at hc; cases hc
      rw [h2] at hl; cases hl
  · have hkeys : (main D P (Context.start config)).1.exportKeys =
        ["vmIPs", "controlPlaneIP", "nodeName", "vmCount", "edgeNodeIP",
         "edgeNodePrivateIP", "nodeBalancerHostname", "nodeBalancerIPv4",
         "edgeNodeRegion"] := by
      rw [hm]
      unfold Context.exportKeys
      rcases ProvisionLinodeEdge_exports P _ l with ⟨⟨_, hs⟩, _⟩ | ⟨_, edge, nb, hx⟩
      · rw [hs] at h4; cases h4
      · rw [hx, proxmoxExports_exports]
        rfl
    have hres : (main D P (Context.start config)).2 = .returned none := by
      rw [hm]
    refine ⟨Or.inr (Or.inr hkeys), ⟨fun _ => hkeys, fun _ => hres⟩,
      fun _ => ⟨c, h, h2⟩, ?_, ?_, fun _ _ _ => Or.inr ⟨hres, hkeys⟩⟩
    · intro e he
      rw [h] at he; cases he
    · intro infraCfg err' hc hl
      rw [h] at hc; cases hc
      rw [h2] at hl; cases hl

/-- C7, as stated, fails on two counts.  When the creation of `edge-node`
fails with the provider error `boom`, the run returns an error whose text is
`provisioning linode edge: creating edge node: boom`: the resource name
`edge-node` does not occur in it, and neither does a phase, `Config`, `Plan`
or `Apply`.  And the failures of two VMs of different names, `node` with the
provider error `db: timeout` and `node: db` with the provider error
`timeout`, give the same text. -/
theorem C7_error_text_counterexample :
    (((run (exampleDeps threeVMs) (exampleProvider ["edge-node"]) fullConfig).1.calls.getLast?).map
        (fun c => (c.req.name, c.res)) = some ("edge-node", .failed (.base "boom")) ∧
      (run (exampleDeps threeVMs) (exampleProvider ["edge-node"]) fullConfig).2 =
        .returned (some (.wrapf "provisioning linode edge: "
          (.wrapf "creating edge node: " (.base "boom")))) ∧
      (GoError.wrapf "provisioning linode edge: "
          (.wrapf "creating edge node: " (.base "boom"))).Error =
        "provisioning linode edge: creating edge node: boom" ∧
      ¬ occursIn "edge-node" "provisioning linode edge: creating edge node: boom" ∧
      ¬ occursIn "Config" "provisioning linode edge: creating edge node: boom" ∧
      ¬ occursIn "Plan" "provisioning linode edge: creating edge node: boom" ∧
      ¬ occursIn "Apply" "provisioning linode edge: creating edge node: boom") ∧
    (((run (exampleDeps [exampleVM "node" "server" "192.168.1.100"])
          (failingVMProvider "node" "db: timeout") fullConfig).1.calls.getLast?).map
        (fun c => (c.req.name, c.res)) = some ("node", .failed (.base "db: timeout")) ∧
      ((run (exampleDeps [exampleVM "node: db" "server" "192.168.1.100"])
          (failingVMProvider "node: db" "timeout") fullConfig).1.calls.getLast?).map
        (fun c => (c.req.name, c.res)) = some ("node: db", .failed (.base "timeout")) ∧
      (run (exampleDeps [exampleVM "node" "server" "192.168.1.100"])
          (failingVMProvider "node" "db: timeout") fullConfig).2 =
        .returned (some (.wrapf "creating VM node: " (.base "db: timeout"))) ∧
      (run (exampleDeps [exampleVM "node: db" "server" "192.168.1.100"])
          (failingVMProvider "node: db" "timeout") fullConfig).2 =
        .returned (some (.wrapf "creating VM node: db: " (.base "timeout"))) ∧
      "node" ≠ "node: db" ∧
      (GoError.wrapf "creating VM node: " (.base "db: timeout")).Error =
        (GoError.wrapf "creating VM node: db: " (.base "timeout")).Error) := by
  decide

/-- C7, amended: a run whose last provider call failed, for the request `q1`
with the provider error `e1`, returns an error that wraps `e1`.  For a VM the
text is `creating VM <name>: ` followed by the text of `e1`, and holds the
name of the VM.  For a Linode resource the text is
`provisioning linode edge: `, then the text of the resource in
`linodeFailureTexts`, then the text of `e1`; the part the program writes
(what stands before the text of `e1`) holds neither the resource name nor a
phase word.  Against a second such run: failures of two Linode resources of
different names give different texts; a VM failure and a Linode failure give
different texts; failures of two VMs of different names give different texts
when the provider error text is the same; and failures of two VMs give
different texts, whatever the provider errors, when neither name followed by
`: ` is an initial part of the other name followed by `: `. -/
theorem C7_error_texts (D1 : Deps) (P1 : Provider) (config1 : Config) (D2 : Deps)
    (P2 : Provider) (config2 : Config) (q1 q2 : Request) (e1 e2 : GoError)
    (h1 : (run D1 P1 config1).1.calls.getLast? = some ⟨q1, .failed e1⟩)
    (h2 : (run D2 P2 config2).1.calls.getLast? = some ⟨q2, .failed e2⟩) :
    ∃ err1 err2 : GoError,
      (run D1 P1 config1).2 = .returned (some err1) ∧
      (run D2 P2 config2).2 = .returned (some err2) ∧
      e1 ∈ err1.chain ∧
      (q1.isVM = true →
        err1.Error = "creating VM " ++ q1.name ++ ": " ++ e1.Error ∧
          occursIn q1.name err1.Error) ∧
      (q1.isVM = false → ∃ t, (q1.name, t) ∈ linodeFailureTexts ∧
        err1.Error = "provisioning linode edge: " ++ (t ++ e1.Error) ∧
        ¬ occursIn q1.name ("provisioning linode edge: " ++ t) ∧
        ∀ w ∈ phaseWords, ¬ occursIn w ("provisioning linode edge: " ++ t)) ∧
      (q1.isVM = false → q2.isVM = false → q1.name ≠ q2.name → err1.Error ≠ err2.Error) ∧
      (q1.isVM = true → q2.isVM = false → err1.Error ≠ err2.Error) ∧
      (q1.isVM = true → q2.isVM = true → q1.name ≠ q2.name → e1.Error = e2.Error →
        err1.Error ≠ err2.Error) ∧
      (q1.isVM = true → q2.isVM = true →
        ¬ (q1.name ++ ": ").data <+: (q2.name ++ ": ").data →
        ¬ (q2.name ++ ": ").data <+: (q1.name ++ ": ").data →
        err1.Error ≠ err2.Error) := by
  rcases run_last_failed D1 P1 config1 q1 e1 h1 with ⟨hv1, hr1⟩ | ⟨hv1, t1, ht1, hr1⟩ <;>
    rcases run_last_failed D2 P2 config2 q2 e2 h2 with ⟨hv2, hr2⟩ | ⟨hv2, t2, ht2, hr2⟩
  · refine ⟨_, _, hr1, hr2, ?_, ?_, ?_, ?_, ?_, ?_, ?_⟩
    · exact List.mem_cons_of_mem _ (GoError.mem_chain_self e1)
    · exact fun _ => ⟨rfl, vm_name_occursIn q1.name e1⟩
    · intro h; rw [hv1] at h; cases h
    · intro h; rw [hv1] at h; cases h
    · intro _ h; rw [hv2] at h; cases h
    · intro _ _ hne he
      simp only [GoError.Error]
      rw [he]
      exact vm_text_ne_vm_text _ _ _ hne
    · intro _ _ h12 h21
      simp only [GoError.Error]
      exact vm_text_ne_of_no_initial_part _ _ _ _ h12 h21
  · refine ⟨_, _, hr1, hr2, ?_, ?_, ?_, ?_, ?_, ?_, ?_⟩
    · exact List.mem_cons_of_mem _ (GoError.mem_chain_self e1)
    · exact fun _ => ⟨rfl, vm_name_occursIn q1.name e1⟩
    · intro h; rw [hv1] at h; cases h
    · intro h; rw [hv1] at h; cases h
    · intro _ _
      simp only [GoError.Error]
      exact vm_text_ne_linode_text _ _ _
    · intro _ h; rw [hv2] at h; cases h
    · intro _ h; rw [hv2] at h; cases h
  · refine ⟨_, _, hr1, hr2, ?_, ?_, ?_, ?_, ?_, ?_, ?_⟩
    · exact List.mem_cons_of_mem _ (List.mem_cons_of_mem _ (GoError.mem_chain_self e1))
    · intro h; rw [hv1] at h; cases h
    · exact fun _ => ⟨t1, ht1, rfl, (linodeFailureTexts_program_part _ ht1).1,
        (linodeFailureTexts_program_part _ ht1).2⟩
    · intro _ h; rw [hv2] at h; cases h
    · intro h; rw [hv1] at h; cases h
    · intro h; rw [hv1] at h; cases h
    · intro h; rw [hv1] at h; cases h
  · refine ⟨_, _, hr1, hr2, ?_, ?_, ?_, ?_, ?_, ?_, ?_⟩
    · exact List.mem_cons_of_mem _ (List.mem_cons_of_mem _ (GoError.mem_chain_self e1))
    · intro h; rw [hv1] at h; cases h
    · exact fun _ => ⟨t1, ht1, rfl, (linodeFailureTexts_program_part _ ht1).1,
        (linodeFailureTexts_program_part _ ht1).2⟩
    · intro _ _ hne
      simp only [GoError.Error]
      exact linode_text_ne_linode_text _ _ _ _ _ _ ht1 ht2 hne
    · intro h; rw [hv1] at h; cases h
    · intro h; rw [hv1] at h; cases h
    · intro h; rw [hv1] at h; cases h

/-- C7 (amended) at two runs, one failing the creation of `edge-node` and one
failing the creation of `edge-lb`, with the same provider error: the two
returned errors wrap it and have different texts. -/
theorem C7_error_texts_witness :
    ∃ err1 err2 : GoError,
      (run (exampleDeps threeVMs) (exampleProvider ["edge-node"]) fullConfig).2 =
        .returned (some err1) ∧
      (run (exampleDeps threeVMs) (exampleProvider ["edge-lb"]) fullConfig).2 =
        .returned (some err2) ∧
      GoError.base "boom" ∈ err1.chain ∧
      err1.Error ≠ err2.Error := by
  obtain ⟨err1, err2, h1, h2, h3, _, _, h6, _, _, _⟩ :=
    C7_error_texts (exampleDeps threeVMs) (exampleProvider ["edge-node"]) fullConfig
      (exampleDeps threeVMs) (exampleProvider ["edge-lb"]) fullConfig
      (.NewInstance "edge-node" (edgeNodeArgs exampleLinode))
      (.NewNodeBalancer "edge-lb" (edgeLbArgs exampleLinode))
      (.base "boom") (.base "boom") (by decide) (by decide)
  exact ⟨err1, err2, h1, h2, h3, h6 rfl rfl (by decide)⟩

end HomeLab
